import Mathlib

/-!
Vibe Awards: the engagement endpoints of `server.js`

A shallow embedding of the three mutating engagement routes of `src/server.js`

* `POST /api/apps/:id/like`      (lines 645-697)
* `POST /api/apps/:id/nominate`  (lines 699-735)
* `POST /api/battles/:id/vote`   (lines 797-841)

over the tables `apps`, `app_likes`, `nominations`, `battles` and `votes` that
`initializeDatabase` creates (lines 92-198), and of the three owner-only routes
`POST /api/apps`, `POST /api/collaboration/posts` and
`POST /api/collaboration/posts/:id/interest`.  Further sections embed the token
middleware, the query routes, the seeded store of `insertSampleData`, and the
client-side `strong-password` pattern (`js/validation.js`) and `formatNumber`
(`js/api.js`).

Modelling conventions.

* A table is the list of its rows in insertion order; `INSERT` appends, `DELETE`
  filters, `UPDATE` maps.  The `id` column of the association tables
  (`app_likes`, `nominations`, `votes`) and the timestamps are read by none of
  the three routes and are left out.
* SQL `NULL` is `none`.  A JavaScript `undefined` or `null` parameter is bound
  as `NULL`, and `col = NULL` matches no row.
* Counters are unbounded integers (`INTEGER` columns, 64 bit in SQLite).
* Each request runs to completion before the next one starts.
* A counter `UPDATE` is issued without a callback.  The handlers take a flag
  `updOk` saying whether that statement took effect; the plain operations
  `toggleLike`, `nominate` and `castVote` are the handlers with `updOk = true`.
* No `PRAGMA foreign_keys` is issued, so the `FOREIGN KEY` clauses are not
  enforced; the `UNIQUE` constraints are.
-/

namespace VibeAwards

/-! ## Values -/

/-- A value as SQLite stores it in, or compares it with, a column of INTEGER
affinity: an integer, or anything else (text that is not an integer literal, a
real number), which is never equal to an integer. -/
inductive SqlVal where
  | int (n : Int)
  | text (s : String)
  deriving DecidableEq, Repr

/-- SQL `col = ?` on nullable operands: `NULL` on either side matches nothing. -/
def sqlEq {α : Type} [DecidableEq α] : Option α → Option α → Bool
  | some x, some y => decide (x = y)
  | _, _ => false

/-- The route parameter `:id` of the two `/api/apps/:id/...` routes.  `text` is
the parameter itself (compared with the TEXT column `uuid`), `num` the integer
that SQLite's INTEGER affinity converts it to when it is compared with the
column `id`, if it converts at all. -/
structure RouteId where
  text : String
  num : Option Int
  deriving DecidableEq, Repr

/-- The `app_id` field of the vote request's JSON body, by the three things the
handler does with it: `truthy` is JavaScript truthiness (`!app_id` is false),
`looseNum` the integer `n` for which `app_id == n` holds (loose equality with a
number), if any, and `stored` the value bound into `votes.app_id`. -/
structure AppIdArg where
  truthy : Bool
  looseNum : Option Int
  stored : SqlVal
  deriving DecidableEq, Repr

/-- A JSON integer as `app_id`: truthy unless zero, loosely equal to itself. -/
def AppIdArg.ofInt (n : Int) : AppIdArg :=
  ⟨decide (n ≠ 0), some n, SqlVal.int n⟩

/-! ## Tables -/

/-- A row of `apps` (the columns the engagement routes read or write). -/
structure App where
  id : Int
  uuid : String
  like_count : Int
  nomination_count : Int
  deriving DecidableEq, Repr

/-- A row of `app_likes`. -/
structure AppLike where
  user_id : Option Int
  app_id : Int
  ip_address : Option String
  deriving DecidableEq, Repr

/-- A row of `nominations`. -/
structure Nomination where
  user_id : Option Int
  app_id : Int
  ip_address : Option String
  deriving DecidableEq, Repr

/-- A row of `battles`. -/
structure Battle where
  id : Int
  app1_id : Int
  app2_id : Int
  app1_votes : Int
  app2_votes : Int
  total_votes : Int
  deriving DecidableEq, Repr

/-- A row of `votes`. -/
structure Vote where
  user_id : Option Int
  battle_id : SqlVal
  app_id : SqlVal
  ip_address : Option String
  user_agent : Option String
  deriving DecidableEq, Repr

/-- The persistent store. -/
structure Store where
  apps : List App
  app_likes : List AppLike
  nominations : List Nomination
  battles : List Battle
  votes : List Vote
  deriving DecidableEq, Repr

/-! ## Requests and responses -/

/-- A request to `/api/apps/:id/like` or `/api/apps/:id/nominate`:
`userId` is `req.user?.id`, `ipAddress` is `getClientIP(req)`. -/
structure AppRequest where
  id : RouteId
  userId : Option Int
  ipAddress : Option String
  deriving DecidableEq, Repr

/-- A request to `/api/battles/:id/vote`.  `id` is the route parameter as
SQLite compares and stores it in the INTEGER columns `battles.id` and
`votes.battle_id`. -/
structure VoteRequest where
  id : SqlVal
  app_id : AppIdArg
  userId : Option Int
  ipAddress : Option String
  userAgent : Option String
  deriving DecidableEq, Repr

/-- The HTTP response: status code and the JSON body's fields. -/
structure Response where
  status : Nat
  message : Option String
  error : Option String
  liked : Option Bool
  deriving DecidableEq, Repr

/-- Response `res.status(code).json(error: msg)`. -/
def Response.fail (code : Nat) (msg : String) : Response :=
  ⟨code, none, some msg, none⟩

/-- Response `res.json(message: msg)`, status 200. -/
def Response.ok (msg : String) : Response :=
  ⟨200, some msg, none, none⟩

/-- Response `res.json(message: msg, liked: b)`, status 200. -/
def Response.okLiked (msg : String) (b : Bool) : Response :=
  ⟨200, some msg, none, some b⟩

/-! ## Queries shared by the like and nominate routes -/

/-- The predicate `uuid = ? OR id = ?` with both parameters the route id. -/
def appMatches (id : RouteId) (a : App) : Bool :=
  decide (a.uuid = id.text) || decide (id.num = some a.id)

/-- The row `db.get('SELECT id FROM apps WHERE uuid = ? OR id = ?')` yields. -/
def findApp (s : Store) (id : RouteId) : Option App :=
  s.apps.find? (appMatches id)

/-! ## Toggle-Like -/

/-- The predicate `app_id = ? AND (user_id = ? OR ip_address = ?)` on `app_likes`. -/
def likeMatches (appId : Int) (userId : Option Int) (ip : Option String)
    (r : AppLike) : Bool :=
  decide (r.app_id = appId) && (sqlEq r.user_id userId || sqlEq r.ip_address ip)

/-- The statement `INSERT INTO app_likes (app_id, user_id, ip_address)`: it fails
when `UNIQUE(user_id, app_id)` or `UNIQUE(ip_address, app_id)` would be violated. -/
def insertLike (rows : List AppLike) (r : AppLike) : Option (List AppLike) :=
  if rows.any (fun x => decide (x.app_id = r.app_id) && sqlEq x.user_id r.user_id)
      || rows.any (fun x => decide (x.app_id = r.app_id) && sqlEq x.ip_address r.ip_address)
  then none
  else some (rows ++ [r])

/-- The statement `UPDATE apps SET like_count = like_count + d WHERE id = ?`. -/
def addLikeCount (d : Int) (appId : Int) (apps : List App) : List App :=
  apps.map fun a => if a.id = appId then { a with like_count := a.like_count + d } else a

/-- The handler of `POST /api/apps/:id/like`. -/
def likeHandler (updOk : Bool) (s : Store) (r : AppRequest) : Store × Response :=
  match findApp s r.id with
  | none => (s, Response.fail 404 "App not found")
  | some app =>
    if s.app_likes.any (likeMatches app.id r.userId r.ipAddress) then
      let s1 : Store :=
        { s with app_likes :=
            s.app_likes.filter fun x => !likeMatches app.id r.userId r.ipAddress x }
      let s2 : Store :=
        if updOk then { s1 with apps := addLikeCount (-1) app.id s1.apps } else s1
      (s2, Response.okLiked "Like removed" false)
    else
      match insertLike s.app_likes ⟨r.userId, app.id, r.ipAddress⟩ with
      | none => (s, Response.fail 500 "Database error")
      | some rows =>
        let s1 : Store := { s with app_likes := rows }
        let s2 : Store :=
          if updOk then { s1 with apps := addLikeCount 1 app.id s1.apps } else s1
        (s2, Response.okLiked "App liked" true)

/-- Toggle-Like with every statement taking effect. -/
def toggleLike (s : Store) (r : AppRequest) : Store × Response :=
  likeHandler true s r

/-- A sequence of Toggle-Like requests, each run to completion before the next. -/
def runLikes (s : Store) (rs : List AppRequest) : Store :=
  rs.foldl (fun st r => (toggleLike st r).1) s

/-- The number of `app_likes` rows of an app. -/
def likeRows (s : Store) (appId : Int) : Nat :=
  s.app_likes.countP fun x => decide (x.app_id = appId)

/-! ## Nominate -/

/-- The predicate `app_id = ? AND (user_id = ? OR ip_address = ?)` on `nominations`. -/
def nominationMatches (appId : Int) (userId : Option Int) (ip : Option String)
    (r : Nomination) : Bool :=
  decide (r.app_id = appId) && (sqlEq r.user_id userId || sqlEq r.ip_address ip)

/-- The statement `INSERT INTO nominations (app_id, user_id, ip_address)` under
`UNIQUE(user_id, app_id)` and `UNIQUE(ip_address, app_id)`. -/
def insertNomination (rows : List Nomination) (r : Nomination) :
    Option (List Nomination) :=
  if rows.any (fun x => decide (x.app_id = r.app_id) && sqlEq x.user_id r.user_id)
      || rows.any (fun x => decide (x.app_id = r.app_id) && sqlEq x.ip_address r.ip_address)
  then none
  else some (rows ++ [r])

/-- The statement `UPDATE apps SET nomination_count = nomination_count + 1 WHERE id = ?`. -/
def addNominationCount (appId : Int) (apps : List App) : List App :=
  apps.map fun a =>
    if a.id = appId then { a with nomination_count := a.nomination_count + 1 } else a

/-- The handler of `POST /api/apps/:id/nominate`. -/
def nominateHandler (updOk : Bool) (s : Store) (r : AppRequest) : Store × Response :=
  match findApp s r.id with
  | none => (s, Response.fail 404 "App not found")
  | some app =>
    if s.nominations.any (nominationMatches app.id r.userId r.ipAddress) then
      (s, Response.fail 400 "Already nominated this app")
    else
      match insertNomination s.nominations ⟨r.userId, app.id, r.ipAddress⟩ with
      | none => (s, Response.fail 500 "Database error")
      | some rows =>
        let s1 : Store := { s with nominations := rows }
        let s2 : Store :=
          if updOk then { s1 with apps := addNominationCount app.id s1.apps } else s1
        (s2, Response.ok "App nominated for battle")

/-- Nominate with every statement taking effect. -/
def nominate (s : Store) (r : AppRequest) : Store × Response :=
  nominateHandler true s r

/-! ## CastVote -/

/-- The predicate `battle_id = ? AND (user_id = ? OR ip_address = ?)` on `votes`. -/
def voteMatches (battleId : SqlVal) (userId : Option Int) (ip : Option String)
    (v : Vote) : Bool :=
  decide (v.battle_id = battleId) && (sqlEq v.user_id userId || sqlEq v.ip_address ip)

/-- The statement `INSERT INTO votes (battle_id, app_id, user_id, ip_address,
user_agent)` under `UNIQUE(user_id, battle_id)` and `UNIQUE(ip_address, battle_id)`. -/
def insertVote (rows : List Vote) (v : Vote) : Option (List Vote) :=
  if rows.any (fun x => decide (x.battle_id = v.battle_id) && sqlEq x.user_id v.user_id)
      || rows.any (fun x => decide (x.battle_id = v.battle_id)
            && sqlEq x.ip_address v.ip_address)
  then none
  else some (rows ++ [v])

/-- The row `db.get('SELECT app1_id, app2_id FROM battles WHERE id = ?')` yields. -/
def findBattle (s : Store) (id : SqlVal) : Option Battle :=
  s.battles.find? fun b => decide (SqlVal.int b.id = id)

/-- The statement
`UPDATE battles SET app1_votes = app1_votes + 1, total_votes = total_votes + 1 WHERE id = ?`. -/
def voteForApp1 (id : SqlVal) (bs : List Battle) : List Battle :=
  bs.map fun b =>
    if SqlVal.int b.id = id then
      { b with app1_votes := b.app1_votes + 1, total_votes := b.total_votes + 1 }
    else b

/-- The statement
`UPDATE battles SET app2_votes = app2_votes + 1, total_votes = total_votes + 1 WHERE id = ?`. -/
def voteForApp2 (id : SqlVal) (bs : List Battle) : List Battle :=
  bs.map fun b =>
    if SqlVal.int b.id = id then
      { b with app2_votes := b.app2_votes + 1, total_votes := b.total_votes + 1 }
    else b

/-- The callback of `SELECT app1_id, app2_id FROM battles WHERE id = ?` after the
vote row is in: which counter `UPDATE`, if any, is issued. -/
def tally (s : Store) (r : VoteRequest) : List Battle :=
  match findBattle s r.id with
  | none => s.battles
  | some b =>
    if r.app_id.looseNum = some b.app1_id then voteForApp1 r.id s.battles
    else if r.app_id.looseNum = some b.app2_id then voteForApp2 r.id s.battles
    else s.battles

/-- The handler of `POST /api/battles/:id/vote`. -/
def voteHandler (updOk : Bool) (s : Store) (r : VoteRequest) : Store × Response :=
  if !r.app_id.truthy then (s, Response.fail 400 "app_id is required")
  else if s.votes.any (voteMatches r.id r.userId r.ipAddress) then
    (s, Response.fail 400 "Already voted in this battle")
  else
    match insertVote s.votes ⟨r.userId, r.id, r.app_id.stored, r.ipAddress, r.userAgent⟩ with
    | none => (s, Response.fail 500 "Database error")
    | some rows =>
      let s1 : Store := { s with votes := rows }
      let s2 : Store := if updOk then { s1 with battles := tally s1 r } else s1
      (s2, Response.ok "Vote cast successfully")

/-- CastVote with every statement taking effect. -/
def castVote (s : Store) (r : VoteRequest) : Store × Response :=
  voteHandler true s r

/-- A sequence of CastVote requests, each run to completion before the next. -/
def runVotes (s : Store) (rs : List VoteRequest) : Store :=
  rs.foldl (fun st r => (castVote st r).1) s

/-- The tally invariant of a battle: `total_votes = app1_votes + app2_votes`. -/
def Battle.tallyOk (b : Battle) : Prop :=
  b.total_votes = b.app1_votes + b.app2_votes

/-! ## Sample data for the concrete evaluations -/

/-- One app, id 1, with no likes and no nominations. -/
def app1 : App := ⟨1, "app-one", 0, 0⟩

/-- One battle, id 1, between apps 1 and 2, with no votes. -/
def battle1 : Battle := ⟨1, 1, 2, 0, 0, 0⟩

/-- A store with `app1`, `battle1` and empty association tables. -/
def store0 : Store := ⟨[app1], [], [], [battle1], []⟩

/-- The route id `"1"`, which SQLite converts to the integer 1. -/
def rid1 : RouteId := ⟨"1", some 1⟩

/-- A battle, id 1, of app 5 against itself, with no votes. -/
def selfBattle : Battle := ⟨1, 5, 5, 0, 0, 0⟩

/-- A vote for app 1 in battle 1 by verified user 7 calling from 10.0.0.1. -/
def vote7 : VoteRequest := ⟨SqlVal.int 1, AppIdArg.ofInt 1, some 7, some "10.0.0.1", none⟩

/-- A vote in battle 1 for app 3, which is neither app 1 nor app 2. -/
def voteForeign : VoteRequest :=
  ⟨SqlVal.int 1, AppIdArg.ofInt 3, some 7, some "10.0.0.1", none⟩

/-- A like of app 1 by verified user 1 calling from 10.0.0.1. -/
def like1 : AppRequest := ⟨rid1, some 1, some "10.0.0.1"⟩

/-- A request on app 1 by verified user 7 calling from 10.0.0.1. -/
def nominate7 : AppRequest := ⟨rid1, some 7, some "10.0.0.1"⟩

/-- A request on app 1 by verified user 8 calling from 10.0.0.1. -/
def nominate8 : AppRequest := ⟨rid1, some 8, some "10.0.0.1"⟩

/-- A request on app 1 by an unauthenticated visitor calling from 10.0.0.1. -/
def anonSameAddress : AppRequest := ⟨rid1, none, some "10.0.0.1"⟩

/-- A vote for app 2 in battle 1 by an unauthenticated visitor at 10.0.0.1. -/
def voteAnon : VoteRequest :=
  ⟨SqlVal.int 1, AppIdArg.ofInt 2, none, some "10.0.0.1", none⟩

/-- A vote for app 2 in battle 1 by verified user 8 calling from 10.0.0.1. -/
def vote8 : VoteRequest :=
  ⟨SqlVal.int 1, AppIdArg.ofInt 2, some 8, some "10.0.0.1", none⟩

instance (b : Battle) : Decidable b.tallyOk := by
  unfold Battle.tallyOk
  infer_instance

/-- The three Toggle-Like requests on app 1 after which the counter has drifted:
user 1 from 10.0.0.1, user 2 from 10.0.0.2, then user 1 again from 10.0.0.2. -/
def driftRequests : List AppRequest :=
  [⟨rid1, some 1, some "10.0.0.1"⟩, ⟨rid1, some 2, some "10.0.0.2"⟩,
   ⟨rid1, some 1, some "10.0.0.2"⟩]

/-- The store after the first two requests of `driftRequests`: app 1 has
like_count 2 and the two rows (user 1, 10.0.0.1) and (user 2, 10.0.0.2). -/
def twoLikes : Store := runLikes store0 (driftRequests.take 2)

/-- What relates a battle row before and after CastVote requests: same battle,
same two apps, and the tally invariant carried over. -/
def Battle.Kept (b b' : Battle) : Prop :=
  b'.id = b.id ∧ b'.app1_id = b.app1_id ∧ b'.app2_id = b.app2_id ∧
    (b.tallyOk → b'.tallyOk)

/-! ## Sequences of Nominate requests and the nominations counter -/

/-- A sequence of Nominate requests, each run to completion before the next. -/
def runNominations (s : Store) (rs : List AppRequest) : Store :=
  rs.foldl (fun st r => (nominate st r).1) s

/-- The number of `nominations` rows of an app. -/
def nominationRows (s : Store) (appId : Int) : Nat :=
  s.nominations.countP fun x => decide (x.app_id = appId)

/-- The counter invariant of nominations: every app's nomination_count is the
number of its `nominations` rows. -/
def NominationsCounted (s : Store) : Prop :=
  ∀ a ∈ s.apps, a.nomination_count = (nominationRows s a.id : Int)

instance (s : Store) : Decidable (NominationsCounted s) := by
  unfold NominationsCounted
  infer_instance

/-! ## Uniqueness in `votes` -/

/-- Two vote rows of one battle with the same non-null `user_id`. -/
def Vote.sameUser (v w : Vote) : Prop :=
  v.battle_id = w.battle_id ∧ v.user_id ≠ none ∧ v.user_id = w.user_id

/-- Two vote rows of one battle with the same non-null `ip_address`. -/
def Vote.sameAddress (v w : Vote) : Prop :=
  v.battle_id = w.battle_id ∧ v.ip_address ≠ none ∧ v.ip_address = w.ip_address

instance (v w : Vote) : Decidable (v.sameUser w) := by
  unfold Vote.sameUser
  infer_instance

instance (v w : Vote) : Decidable (v.sameAddress w) := by
  unfold Vote.sameAddress
  infer_instance

/-- No two rows of the table are of one battle and carry the same non-null
`user_id`, or the same non-null `ip_address`. -/
def votesUnique (vs : List Vote) : Prop :=
  vs.Pairwise fun v w => ¬ v.sameUser w ∧ ¬ v.sameAddress w

/-! ## The handlers in two phases

Every database call of a handler is asynchronous: the handler's next step runs
in the callback, on the store as it is when that statement executes.  The
definitions below cut the nominate and vote handlers at the callback of the
existence check, so that the INSERT can be run on a store other than the one
the check saw. -/

/-- The nominate handler up to the callback of the existence check
(lines 704-716): the response it ends with, or the app row it goes on with. -/
def nominateCheck (s : Store) (r : AppRequest) : Except Response App :=
  match findApp s r.id with
  | none => Except.error (Response.fail 404 "App not found")
  | some app =>
    if s.nominations.any (nominationMatches app.id r.userId r.ipAddress) then
      Except.error (Response.fail 400 "Already nominated this app")
    else Except.ok app

/-- The INSERT of the nominate handler and its callback (lines 718-731), on the
store as it is when the INSERT executes. -/
def nominateInsert (updOk : Bool) (s : Store) (app : App) (r : AppRequest) :
    Store × Response :=
  match insertNomination s.nominations ⟨r.userId, app.id, r.ipAddress⟩ with
  | none => (s, Response.fail 500 "Database error")
  | some rows =>
    let s1 : Store := { s with nominations := rows }
    let s2 : Store :=
      if updOk then { s1 with apps := addNominationCount app.id s1.apps } else s1
    (s2, Response.ok "App nominated for battle")

/-- The vote handler up to the callback of the existence check (lines 803-814):
the response it ends with, or `none` when it goes on to the INSERT. -/
def voteCheck (s : Store) (r : VoteRequest) : Option Response :=
  if !r.app_id.truthy then some (Response.fail 400 "app_id is required")
  else if s.votes.any (voteMatches r.id r.userId r.ipAddress) then
    some (Response.fail 400 "Already voted in this battle")
  else none

/-- The INSERT of the vote handler and its callback (lines 817-838), on the store
as it is when the INSERT executes. -/
def voteInsert (updOk : Bool) (s : Store) (r : VoteRequest) : Store × Response :=
  match insertVote s.votes ⟨r.userId, r.id, r.app_id.stored, r.ipAddress, r.userAgent⟩ with
  | none => (s, Response.fail 500 "Database error")
  | some rows =>
    let s1 : Store := { s with votes := rows }
    let s2 : Store := if updOk then { s1 with battles := tally s1 r } else s1
    (s2, Response.ok "Vote cast successfully")

/-- One step of `votesChecksFirst`: a request whose check ended the handler keeps
that response; the others run their INSERT on the current store. -/
def voteAfterCheck (acc : Store × List Response) (p : VoteRequest × Option Response) :
    Store × List Response :=
  match p.2 with
  | some resp => (acc.1, acc.2 ++ [resp])
  | none => ((voteInsert true acc.1 p.1).1, acc.2 ++ [(voteInsert true acc.1 p.1).2])

/-- Concurrent CastVote requests in the schedule in which the existence check of
every request executes (on the initial store) before the first INSERT does; the
INSERTs then execute in the order of the list, each followed by the counter
statements of its callback.  The result is the final store and the responses in
the order of the requests. -/
def votesChecksFirst (s : Store) (rs : List VoteRequest) : Store × List Response :=
  (rs.map fun r => (r, voteCheck s r)).foldl voteAfterCheck (s, [])

/-- The store after user 7 has voted for app 1 in battle 1 of `store0`. -/
def voted7 : Store := (castVote store0 vote7).1

/-- The store after user 7 has nominated app 1 of `store0`. -/
def nominated7 : Store := (nominate store0 nominate7).1

/-- A vote for app 1 in battle 999, which `store0` does not have. -/
def voteNoBattle : VoteRequest :=
  ⟨SqlVal.int 999, AppIdArg.ofInt 1, some 7, some "10.0.0.1", none⟩

/-- A request on an app id that matches no app of `store0`. -/
def requestNoApp : AppRequest := ⟨⟨"404", some 404⟩, some 7, some "10.0.0.1"⟩

/-! ## The owner-only routes

`POST /api/apps` (lines 563-642, behind the multer middleware configured at
lines 33-59), `POST /api/collaboration/posts` (lines 924-976) and
`POST /api/collaboration/posts/:id/interest` (lines 978-1018).  Body fields
are optional strings; a field is present when it is a non-empty string, which
is JavaScript truthiness on strings. -/

/-- The verified user `req.user`, the payload of the bearer token; the routes
read its `id`. -/
structure User where
  id : Int
  deriving DecidableEq, Repr

/-- A row of `app_screenshots`. -/
structure Screenshot where
  app_id : Int
  url : String
  order_index : Nat
  deriving DecidableEq, Repr

/-- A row of `app_features`. -/
structure Feature where
  app_id : Int
  feature_name : String
  deriving DecidableEq, Repr

/-- A row of `collaboration_posts` (the columns the owner-only routes read,
write or constrain). -/
structure CollaborationPost where
  id : Int
  uuid : String
  user_id : Int
  project_stage : String
  collaboration_type : String
  interest_count : Int
  deriving DecidableEq, Repr

/-- A row of `collaboration_interests`. -/
structure CollaborationInterest where
  post_id : Int
  user_id : Int
  message : Option String
  portfolio_url : Option String
  contact_info : Option String
  deriving DecidableEq, Repr

/-- The whole database: the engagement tables and the tables the owner-only
routes write. -/
structure Database where
  store : Store
  app_screenshots : List Screenshot
  app_features : List Feature
  collaboration_posts : List CollaborationPost
  collaboration_interests : List CollaborationInterest
  deriving DecidableEq, Repr

/-- JavaScript truthiness of an optional string field: `!field` is false. -/
def present : Option String → Bool
  | some x => decide (x ≠ "")
  | none => false

/-- The value of `this.lastID` after an INSERT into a table with an
AUTOINCREMENT key from which no row was ever deleted: one more than the
largest id. -/
def nextId (ids : List Int) : Int :=
  ids.foldl max 0 + 1

/-- The files multer put into `req.files`. -/
structure UploadedFiles where
  icon : Option String
  screenshots : Option (List String)
  deriving DecidableEq, Repr

/-- A file part of a multipart request as multer meets it: the form field it
came in, its MIME type, its size in bytes, and the name `diskStorage` gives the
file in `./uploads`. -/
structure UploadedPart where
  fieldname : String
  mimetype : String
  size : Nat
  filename : String
  deriving DecidableEq, Repr

/-- The limit `fileSize: 10 * 1024 * 1024` of the multer configuration (line 50). -/
def fileSizeLimit : Nat := 10 * 1024 * 1024

/-- The test of `fileFilter` (line 53): `file.mimetype.startsWith('image/')`. -/
def isImage (mimetype : String) : Bool :=
  "image/".toList.isPrefixOf mimetype.toList

/-- The errors with which multer ends a request: a file over the size limit
(`MulterError` with code `LIMIT_FILE_SIZE`), a file in a field that is not
expected or has its `maxCount` already (`MulterError`, `LIMIT_UNEXPECTED_FILE`),
and the `Error('Only image files are allowed!')` of `fileFilter`. -/
inductive UploadError where
  | limitFileSize
  | limitUnexpectedFile
  | notAnImage
  deriving DecidableEq, Repr

/-- The error handling middleware (lines 1209-1216). -/
def errorMiddleware : UploadError → Response
  | UploadError.limitFileSize => Response.fail 400 "File too large"
  | _ => Response.fail 500 "Server error"

/-- What `upload.fields` does with a multipart request: it passes the request on
with `req.files` filled, or ends it with an error. -/
inductive UploadResult where
  | passed (files : UploadedFiles)
  | refused (error : UploadError)
  deriving DecidableEq, Repr

/-- The middleware `upload.fields` on the file parts still to come: `iconLeft` and
`shotsLeft` are how many more files the fields `icon` and `screenshots` take.
A part is checked against its field's count, then by `fileFilter`, then against
the size limit while it is written. -/
def uploadParts : List UploadedPart → Nat → Nat → UploadedFiles → UploadResult
  | [], _, _, files => UploadResult.passed files
  | p :: ps, iconLeft, shotsLeft, files =>
    if p.fieldname = "icon" then
      if iconLeft = 0 then UploadResult.refused UploadError.limitUnexpectedFile
      else if !isImage p.mimetype then UploadResult.refused UploadError.notAnImage
      else if p.size > fileSizeLimit then UploadResult.refused UploadError.limitFileSize
      else uploadParts ps (iconLeft - 1) shotsLeft { files with icon := some p.filename }
    else if p.fieldname = "screenshots" then
      if shotsLeft = 0 then UploadResult.refused UploadError.limitUnexpectedFile
      else if !isImage p.mimetype then UploadResult.refused UploadError.notAnImage
      else if p.size > fileSizeLimit then UploadResult.refused UploadError.limitFileSize
      else uploadParts ps iconLeft (shotsLeft - 1)
        { files with screenshots := some (files.screenshots.getD [] ++ [p.filename]) }
    else UploadResult.refused UploadError.limitUnexpectedFile

/-- The middleware `upload.fields([icon: maxCount 1, screenshots: maxCount 10])`
of the route `POST /api/apps` (lines 563-566). -/
def uploadFields (parts : List UploadedPart) : UploadResult :=
  uploadParts parts 1 10 ⟨none, none⟩

/-- A request to `POST /api/apps`.  `upload` is `none` when the request is not
multipart (multer passes it on and leaves `req.files` undefined), else the file
parts of the body; `features` is the list of the trimmed pieces of the body's
`features` field (empty when the field is absent); `appUuid` is the value
`uuidv4()` returns. -/
structure SubmitAppRequest where
  user : Option User
  upload : Option (List UploadedPart)
  name : Option String
  short_description : Option String
  full_description : Option String
  category : Option String
  platform : Option String
  features : List String
  appUuid : String
  deriving DecidableEq, Repr

/-- The handler of `POST /api/apps` (lines 567-642), which the route reaches after
`authenticateToken` and `upload.fields`; `files` is `req.files`. -/
def submitAppHandler (d : Database) (r : SubmitAppRequest) (files : Option UploadedFiles) :
    Database × Response :=
  match r.user with
  | none => (d, Response.fail 401 "Authentication required")
  | some _ =>
    if !(present r.name && present r.short_description && present r.full_description
          && present r.category && present r.platform) then
      (d, Response.fail 400 "Missing required fields")
    else
      match files with
      | none => (d, Response.fail 500 "Server error")
      | some files =>
        if d.store.apps.any (fun a => decide (a.uuid = r.appUuid)) then
          (d, Response.fail 500 "Database error")
        else
          let appId := nextId (d.store.apps.map fun a => a.id)
          let shots : List Screenshot :=
            match files.screenshots with
            | none => []
            | some names =>
              names.enum.map fun p => ⟨appId, "/uploads/" ++ p.2, p.1⟩
          let feats : List Feature :=
            (r.features.filter fun x => decide (x ≠ "")).map fun x => ⟨appId, x⟩
          ({ d with
              store := { d.store with apps := d.store.apps ++ [⟨appId, r.appUuid, 0, 0⟩] },
              app_screenshots := d.app_screenshots ++ shots,
              app_features := d.app_features ++ feats },
            ⟨201, some "App submitted successfully", none, none⟩)

/-- The route `POST /api/apps` (lines 563-642): `upload.fields` runs before the
handler, and an upload it refuses is answered by the error handling
middleware without the handler being reached. -/
def submitApp (d : Database) (r : SubmitAppRequest) : Database × Response :=
  match r.upload with
  | none => submitAppHandler d r none
  | some parts =>
    match uploadFields parts with
    | UploadResult.refused e => (d, errorMiddleware e)
    | UploadResult.passed files => submitAppHandler d r (some files)

/-- The values the CHECK constraint of `collaboration_posts.project_stage` admits. -/
def projectStages : List String := ["idea", "prototype", "mvp", "near_complete"]

/-- The values the CHECK constraint of `collaboration_posts.collaboration_type` admits. -/
def collaborationTypes : List String :=
  ["co_founder", "developer", "designer", "marketer", "mentor", "other"]

/-- A request to `POST /api/collaboration/posts`; `postUuid` is the value
`uuidv4()` returns. -/
structure CreatePostRequest where
  user : Option User
  title : Option String
  description : Option String
  project_stage : Option String
  collaboration_type : Option String
  skills_needed : Option String
  project_category : Option String
  postUuid : String
  deriving DecidableEq, Repr

/-- The handler of `POST /api/collaboration/posts`. -/
def createPost (d : Database) (r : CreatePostRequest) : Database × Response :=
  match r.user with
  | none => (d, Response.fail 401 "Authentication required")
  | some user =>
    if !(present r.title && present r.description && present r.project_stage
          && present r.collaboration_type && present r.skills_needed
          && present r.project_category) then
      (d, Response.fail 400 "Missing required fields")
    else
      let stage := r.project_stage.getD ""
      let kind := r.collaboration_type.getD ""
      if d.collaboration_posts.any (fun x => decide (x.uuid = r.postUuid))
          || !(projectStages.contains stage) || !(collaborationTypes.contains kind) then
        (d, Response.fail 500 "Database error")
      else
        let postId := nextId (d.collaboration_posts.map fun x => x.id)
        ({ d with collaboration_posts :=
              d.collaboration_posts ++ [⟨postId, r.postUuid, user.id, stage, kind, 0⟩] },
          ⟨201, some "Collaboration post created successfully", none, none⟩)

/-- A request to `POST /api/collaboration/posts/:id/interest`. -/
structure InterestRequest where
  user : Option User
  id : RouteId
  message : Option String
  portfolio_url : Option String
  contact_info : Option String
  deriving DecidableEq, Repr

/-- The row `SELECT id FROM collaboration_posts WHERE uuid = ? OR id = ?` yields. -/
def findPost (d : Database) (id : RouteId) : Option CollaborationPost :=
  d.collaboration_posts.find? fun x =>
    decide (x.uuid = id.text) || decide (id.num = some x.id)

/-- The statement
`UPDATE collaboration_posts SET interest_count = interest_count + 1 WHERE id = ?`. -/
def addInterestCount (postId : Int) (ps : List CollaborationPost) :
    List CollaborationPost :=
  ps.map fun x =>
    if x.id = postId then { x with interest_count := x.interest_count + 1 } else x

/-- The statement `INSERT INTO collaboration_interests (post_id, user_id, message,
portfolio_url, contact_info)` under `UNIQUE(post_id, user_id)`. -/
def insertInterest (rows : List CollaborationInterest) (x : CollaborationInterest) :
    Option (List CollaborationInterest) :=
  if rows.any (fun y => decide (y.post_id = x.post_id) && decide (y.user_id = x.user_id))
  then none
  else some (rows ++ [x])

/-- The handler of `POST /api/collaboration/posts/:id/interest`. -/
def expressInterest (d : Database) (r : InterestRequest) : Database × Response :=
  match r.user with
  | none => (d, Response.fail 401 "Authentication required")
  | some user =>
    match findPost d r.id with
    | none => (d, Response.fail 404 "Collaboration post not found")
    | some post =>
      if d.collaboration_interests.any
          (fun x => decide (x.post_id = post.id) && decide (x.user_id = user.id)) then
        (d, Response.fail 400 "Already expressed interest in this post")
      else
        match insertInterest d.collaboration_interests
            ⟨post.id, user.id, r.message, r.portfolio_url, r.contact_info⟩ with
        | none => (d, Response.fail 500 "Database error")
        | some rows =>
          ({ d with
              collaboration_interests := rows,
              collaboration_posts := addInterestCount post.id d.collaboration_posts },
            Response.ok "Interest expressed successfully")

/-- The database with `store0` and the other tables empty. -/
def db0 : Database := ⟨store0, [], [], [], []⟩

/-- A complete app submission with a PNG icon that carries no verified user. -/
def submitAnon : SubmitAppRequest :=
  ⟨none, some [⟨"icon", "image/png", 2048, "icon-1.png"⟩], some "App", some "short",
    some "full", some "games", some "web", [], "uuid-2"⟩

/-- A complete app submission that carries no verified user and, as its icon, a
file that is not an image. -/
def submitAnonText : SubmitAppRequest :=
  ⟨none, some [⟨"icon", "text/plain", 12, "icon-1.txt"⟩], some "App", some "short",
    some "full", some "games", some "web", [], "uuid-2"⟩

/-- A complete app submission that carries no verified user and a PNG screenshot
of 11 MB. -/
def submitAnonHuge : SubmitAppRequest :=
  ⟨none, some [⟨"screenshots", "image/png", 11 * 1024 * 1024, "screenshots-1.png"⟩],
    some "App", some "short", some "full", some "games", some "web", [], "uuid-2"⟩

/-- A complete collaboration post that carries no verified user. -/
def postAnon : CreatePostRequest :=
  ⟨none, some "Title", some "text", some "idea", some "developer", some "lean",
    some "games", "uuid-3"⟩

/-- An expression of interest in post 1 that carries no verified user. -/
def interestAnon : InterestRequest := ⟨none, rid1, none, none, none⟩

/-! ## Likes and nominations in one run, and the seeded store -/

/-- A Toggle-Like or a Nominate request. -/
inductive Engagement where
  | like (r : AppRequest)
  | nominate (r : AppRequest)
  deriving DecidableEq, Repr

/-- The store after one engagement request. -/
def engage (s : Store) : Engagement → Store
  | Engagement.like r => (toggleLike s r).1
  | Engagement.nominate r => (nominate s r).1

/-- A sequence of Toggle-Like and Nominate requests, each run to completion
before the next. -/
def runEngagements (s : Store) (es : List Engagement) : Store :=
  es.foldl engage s

/-- The fields of a sample app object of `insertSampleData` that reach the
engagement columns. -/
structure SampleApp where
  uuid : String
  like_count : Int
  nomination_count : Int
  deriving DecidableEq, Repr

/-- The three sample apps of `insertSampleData` (lines 1061-1109) in the order of
the source; the uuids are what `uuidv4()` returned. -/
def sampleApps (u1 u2 u3 : String) : List SampleApp :=
  [⟨u1, 847, 156⟩, ⟨u2, 623, 89⟩, ⟨u3, 445, 67⟩]

/-- The table `apps` after the INSERTs of sample apps have executed on the empty
table in the order `order`: AUTOINCREMENT numbers the rows 1, 2, 3 in the order
of execution.  The `db.run` calls of the `forEach` (lines 1111-1124) are not
serialized, so the order of execution need not be the order of the source. -/
def insertSampleApps (order : List SampleApp) : List App :=
  order.enum.map fun p => ⟨(p.1 : Int) + 1, p.2.uuid, p.2.like_count, p.2.nomination_count⟩

/-- The engagement tables after `insertSampleData` has seeded an empty database,
its app INSERTs having executed in the order `order`: the sample apps with
their preset counters, one battle of app 1 against app 2, and no row in
`app_likes`, `nominations` or `votes`. -/
def seedStore (order : List SampleApp) : Store :=
  ⟨insertSampleApps order, [], [], [⟨1, 1, 2, 3456, 2789, 6245⟩], []⟩

/-- The engagement tables when `insertSampleData` has returned at its guard
`if (err || result.count > 0) return` (line 1024) on an empty database, as it
does when the count query runs before `users` exists: nothing is seeded. -/
def unseededStore : Store := ⟨[], [], [], [], []⟩

/-- The like_count with which the seeding inserted the app that got this id
(0 when no seeded app has it). -/
def seededLikeCount (order : List SampleApp) (id : Int) : Int :=
  match (insertSampleApps order).find? fun a => decide (a.id = id) with
  | some a => a.like_count
  | none => 0

/-- The nomination_count with which the seeding inserted the app that got this
id (0 when no seeded app has it). -/
def seededNominationCount (order : List SampleApp) (id : Int) : Int :=
  match (insertSampleApps order).find? fun a => decide (a.id = id) with
  | some a => a.nomination_count
  | none => 0

/-- The sample apps in an order of execution other than the source's: the second
app's INSERT ran first. -/
def permutedOrder : List SampleApp := [⟨"u2", 623, 89⟩, ⟨"u1", 847, 156⟩, ⟨"u3", 445, 67⟩]

/-- A like and two nominations of the app with id 1, and a like of app 2. -/
def seedRun : List Engagement :=
  [Engagement.like like1, Engagement.nominate nominate7, Engagement.nominate nominate7,
    Engagement.like ⟨⟨"2", some 2⟩, some 7, some "10.0.0.1"⟩]

/-- Every app's like_count is at least a fixed offset per app id plus the number
of its `app_likes` rows. -/
def LikesFrom (off : Int → Int) (s : Store) : Prop :=
  ∀ a ∈ s.apps, off a.id + (likeRows s a.id : Int) ≤ a.like_count

/-- Every app's nomination_count is a fixed offset per app id plus the number of
its `nominations` rows. -/
def NominationsFrom (off : Int → Int) (s : Store) : Prop :=
  ∀ a ∈ s.apps, a.nomination_count = off a.id + (nominationRows s a.id : Int)

instance (off : Int → Int) (s : Store) : Decidable (LikesFrom off s) := by
  unfold LikesFrom
  infer_instance

instance (off : Int → Int) (s : Store) : Decidable (NominationsFrom off s) := by
  unfold NominationsFrom
  infer_instance

/-! ## Counting the votes of a battle -/

/-- The number of `votes` rows of a battle. -/
def votesFor (s : Store) (battleId : Int) : Nat :=
  s.votes.countP fun v => decide (v.battle_id = SqlVal.int battleId)

/-- The number of `votes` rows of a battle whose `app_id` is the given app. -/
def votesForApp (s : Store) (battleId appId : Int) : Nat :=
  s.votes.countP fun v =>
    decide (v.battle_id = SqlVal.int battleId) && decide (v.app_id = SqlVal.int appId)

/-- The battle row at place `i` is still battle `b`, and its counters are counts
of `votes` rows: each side's counter is the number of rows of the battle for
that app, and total_votes is at most the number of rows of the battle. -/
def BattleCounted (s : Store) (i : Nat) (b : Battle) : Prop :=
  ∃ b', s.battles[i]? = some b' ∧ b'.id = b.id ∧ b'.app1_id = b.app1_id ∧
    b'.app2_id = b.app2_id ∧
    b'.app1_votes = (votesForApp s b.id b.app1_id : Int) ∧
    b'.app2_votes = (votesForApp s b.id b.app2_id : Int) ∧
    b'.total_votes ≤ (votesFor s b.id : Int)

/-- An `app_id` that is loosely equal to an integer exactly when SQLite stores it
as that integer: a JSON integer or a decimal string.  The JSON string "0x1" is
not: JavaScript reads it as 1, SQLite keeps it as text. -/
def AppIdArg.plain (a : AppIdArg) : Bool :=
  match a.looseNum, a.stored with
  | some n, SqlVal.int m => decide (n = m)
  | none, SqlVal.text _ => true
  | _, _ => false

/-- The JSON string "0x1" as `app_id`: truthy, loosely equal to 1, stored as text. -/
def hexOne : AppIdArg := ⟨true, some 1, SqlVal.text "0x1"⟩

/-- A vote in battle 1 by user 7 with the `app_id` "0x1". -/
def voteHex : VoteRequest :=
  ⟨SqlVal.int 1, hexOne, some 7, some "10.0.0.1", none⟩

/-! ## The token middleware -/

/-- What `authenticateToken` has done when it is through: the value of
`req.user`, how often it called `next`, and the response it sent, if any. -/
structure AuthResult where
  user : Option User
  nextCalls : Nat
  response : Option Response
  deriving DecidableEq, Repr

/-- The pieces of `split(' ')` on the characters of a string; `cur` holds the
characters of the current piece, latest first. -/
def splitSpaces (cur : List Char) : List Char → List String
  | [] => [String.mk cur.reverse]
  | c :: cs =>
    if c = ' ' then String.mk cur.reverse :: splitSpaces [] cs
    else splitSpaces (c :: cur) cs

/-- The token `authHeader && authHeader.split(' ')[1]`, when it is truthy. -/
def bearerToken (header : Option String) : Option String :=
  match header with
  | none => none
  | some h =>
    match (splitSpaces [] h.toList)[1]? with
    | none => none
    | some t => if t = "" then none else some t

/-- The middleware `authenticateToken` (lines 316-333).  `header` is
`req.headers['authorization']`; `verify` stands for `jwt.verify` with the
server's secret: the payload of a token that verifies, `none` for one that
does not. -/
def authenticateToken (verify : String → Option User) (header : Option String) :
    AuthResult :=
  match bearerToken header with
  | none => ⟨none, 1, none⟩
  | some token =>
    match verify token with
    | none => ⟨none, 1, none⟩
    | some user => ⟨some user, 1, none⟩

/-! ## The query routes

`GET /api/apps` (lines 424-502), `GET /api/apps/:id` (lines 504-561),
`GET /api/battles` (lines 738-770) and `GET /api/battles/current`
(lines 772-795), over the tables with the further columns these routes read or
write.  The columns joined in from `users` and `reviews` and the app names
joined into a battle are left out of the bodies. -/

/-- A row of `apps` with the columns the query routes filter, sort or update. -/
structure AppRecord extends App where
  status : String
  category : String
  featured : Bool
  trending : Bool
  view_count : Int
  created_at : String
  deriving DecidableEq, Repr

/-- A row of `battles` with the columns the query routes filter and sort by. -/
structure BattleRecord extends Battle where
  status : String
  battle_date : String
  deriving DecidableEq, Repr

/-- The tables the query routes touch. -/
structure Catalog where
  apps : List AppRecord
  app_likes : List AppLike
  nominations : List Nomination
  app_screenshots : List Screenshot
  app_features : List Feature
  battles : List BattleRecord
  deriving DecidableEq, Repr

/-- An app as a query response carries it. -/
structure AppView where
  app : AppRecord
  screenshots : List Screenshot
  features : List String
  deriving DecidableEq, Repr

/-- The JSON body of a query response. -/
inductive QueryBody where
  | apps (rows : List AppView) (total : Nat)
  | app (row : AppView)
  | battles (rows : List BattleRecord)
  | battle (row : Option BattleRecord)
  | error (msg : String)
  deriving DecidableEq, Repr

/-- The response of a query route. -/
structure QueryResponse where
  status : Nat
  body : QueryBody
  deriving DecidableEq, Repr

/-- The clause `LIMIT n OFFSET k`: a negative limit is no limit, a negative offset
is none. -/
def limitOffset {α : Type} (limit offset : Int) (rows : List α) : List α :=
  let rest := rows.drop offset.toNat
  if limit < 0 then rest else rest.take limit.toNat

/-- Newer rows first: the order of `ORDER BY created_at DESC`. -/
def newerApp (a b : AppRecord) : Prop := b.created_at ≤ a.created_at

/-- Later battles first: the order of `ORDER BY battle_date DESC`. -/
def laterBattle (a b : BattleRecord) : Prop := b.battle_date ≤ a.battle_date

instance : DecidableRel newerApp := fun a b => by
  unfold newerApp
  infer_instance

instance : DecidableRel laterBattle := fun a b => by
  unfold laterBattle
  infer_instance

instance : IsTotal BattleRecord laterBattle :=
  ⟨fun a b => le_total b.battle_date a.battle_date⟩

instance : IsTrans BattleRecord laterBattle :=
  ⟨fun _ _ _ hab hbc => le_trans hbc hab⟩

/-- The screenshots of an app by `ORDER BY order_index ASC`. -/
def screenshotsOf (c : Catalog) (appId : Int) : List Screenshot :=
  (c.app_screenshots.filter fun x => decide (x.app_id = appId)).insertionSort
    fun x y => x.order_index ≤ y.order_index

/-- The query string of `GET /api/apps`; `limit` and `offset` are what `parseInt`
made of the parameters (50 and 0 when absent), `none` when it made NaN. -/
structure AppsQuery where
  category : Option String
  featured : Option String
  trending : Option String
  limit : Option Int
  offset : Option Int
  deriving DecidableEq, Repr

/-- The WHERE clause `GET /api/apps` builds. -/
def appsFilter (q : AppsQuery) (a : AppRecord) : Bool :=
  decide (a.status = "approved")
    && (match q.category with
        | some cat => if cat ≠ "" ∧ cat ≠ "all" then decide (a.category = cat) else true
        | none => true)
    && (if q.featured = some "true" then a.featured else true)
    && (if q.trending = some "true" then a.trending else true)

/-- The handler of `GET /api/apps`: the approved apps that pass the filters, with
`like_count` and `nomination_count` counted from the association tables, newest
first, paginated, each with its screenshots (this route attaches no features). -/
def getApps (c : Catalog) (q : AppsQuery) : Catalog × QueryResponse :=
  match q.limit, q.offset with
  | some limit, some offset =>
    let rows := limitOffset limit offset
      ((c.apps.filter (appsFilter q)).insertionSort newerApp)
    let views : List AppView := rows.map fun a =>
      ⟨{ a with
          like_count := (c.app_likes.countP fun x => decide (x.app_id = a.id) : Nat),
          nomination_count :=
            (c.nominations.countP fun x => decide (x.app_id = a.id) : Nat) },
        screenshotsOf c a.id, []⟩
    (c, ⟨200, QueryBody.apps views views.length⟩)
  | _, _ => (c, ⟨500, QueryBody.error "Database error"⟩)

/-- The row the SELECT of `GET /api/apps/:id` yields for `WHERE a.uuid = ? OR a.id = ?`. -/
def findAppRecord (c : Catalog) (id : RouteId) : Option AppRecord :=
  c.apps.find? fun a => decide (a.uuid = id.text) || decide (id.num = some a.id)

/-- The statement `UPDATE apps SET view_count = view_count + 1 WHERE id = ?`. -/
def addViewCount (appId : Int) (apps : List AppRecord) : List AppRecord :=
  apps.map fun a => if a.id = appId then { a with view_count := a.view_count + 1 } else a

/-- The handler of `GET /api/apps/:id`: the row as the SELECT read it, with its
screenshots and feature names; the view counter of the app is incremented. -/
def getApp (c : Catalog) (id : RouteId) : Catalog × QueryResponse :=
  match findAppRecord c id with
  | none => (c, ⟨404, QueryBody.error "App not found"⟩)
  | some app =>
    ({ c with apps := addViewCount app.id c.apps },
      ⟨200, QueryBody.app ⟨app, screenshotsOf c app.id,
        (c.app_features.filter fun x => decide (x.app_id = app.id)).map
          fun x => x.feature_name⟩⟩)

/-- The handler of `GET /api/battles`; `status` is the query parameter ("all"
when absent), `limit` the integer SQLite converts the parameter to (20 when
absent), `none` when it does not convert. -/
def getBattles (c : Catalog) (status : String) (limit : Option Int) :
    Catalog × QueryResponse :=
  match limit with
  | none => (c, ⟨500, QueryBody.error "Database error"⟩)
  | some n =>
    let rows := if status ≠ "all" then c.battles.filter fun b => decide (b.status = status)
      else c.battles
    (c, ⟨200, QueryBody.battles (limitOffset n 0 (rows.insertionSort laterBattle))⟩)

/-- The row of `WHERE b.status = 'active' ORDER BY b.battle_date DESC LIMIT 1`. -/
def currentBattle (c : Catalog) : Option BattleRecord :=
  ((c.battles.filter fun b => decide (b.status = "active")).insertionSort laterBattle).head?

/-- The handler of `GET /api/battles/current`: `res.json(battle || null)`. -/
def getCurrentBattle (c : Catalog) : Catalog × QueryResponse :=
  (c, ⟨200, QueryBody.battle (currentBattle c)⟩)

/-- A catalog with one approved app that has been viewed 10 times, and two
active battles and one completed battle. -/
def catalog0 : Catalog :=
  ⟨[⟨⟨1, "app-one", 0, 0⟩, "approved", "games", false, false, 10, "2024-01-01 00:00:00"⟩],
    [], [], [], [],
    [⟨⟨1, 1, 2, 0, 0, 0⟩, "active", "2024-05-01"⟩,
     ⟨⟨2, 1, 2, 0, 0, 0⟩, "active", "2024-06-01"⟩,
     ⟨⟨3, 1, 2, 0, 0, 0⟩, "completed", "2024-07-01"⟩]⟩

/-! ## The strong-password pattern of `validation.js`

`/^(?=.*[a-z])(?=.*[A-Z])(?=.*\d)(?=.*[@$!%*?&])[A-Za-z\d@$!%*?&]{8,}$/` -/

/-- The class `[a-z]`. -/
def isLower (c : Char) : Bool := decide ('a' ≤ c) && decide (c ≤ 'z')

/-- The class `[A-Z]`. -/
def isUpper (c : Char) : Bool := decide ('A' ≤ c) && decide (c ≤ 'Z')

/-- The class `\d`. -/
def isDigit (c : Char) : Bool := decide ('0' ≤ c) && decide (c ≤ '9')

/-- The class `[@$!%*?&]`. -/
def isSpecial (c : Char) : Bool := ['@', '$', '!', '%', '*', '?', '&'].contains c

/-- The class `[A-Za-z\d@$!%*?&]`. -/
def isAllowed (c : Char) : Bool := isUpper c || isLower c || isDigit c || isSpecial c

/-- The characters `.` does not match: LF, CR, U+2028 and U+2029. -/
def isLineTerminator (c : Char) : Bool :=
  decide (c.toNat = 10) || decide (c.toNat = 13) || decide (c.toNat = 8232)
    || decide (c.toNat = 8233)

/-- The lookahead `(?=.*[class])` at the start of the input: a character of the
class, with only characters that `.` matches before it. -/
def lookahead (p : Char → Bool) : List Char → Bool
  | [] => false
  | c :: cs => p c || (!isLineTerminator c && lookahead p cs)

/-- The test of the 'strong-password' validator: `pattern.test(value)`. -/
def strongPassword (value : String) : Bool :=
  lookahead isLower value.toList && lookahead isUpper value.toList
    && lookahead isDigit value.toList && lookahead isSpecial value.toList
    && (value.toList.all isAllowed && decide (8 ≤ value.toList.length))

/-- What the validator's message asks of a password, in the message's words: at
least 8 characters, with an uppercase letter, a lowercase letter, a number and
a special character (one that is neither a letter nor a digit). -/
def meetsPasswordMessage (value : String) : Bool :=
  decide (8 ≤ value.toList.length) && value.toList.any isUpper
    && value.toList.any isLower && value.toList.any isDigit
    && value.toList.any fun c => !(isUpper c || isLower c || isDigit c)

/-! ## `formatNumber` of `api.js` -/

/-- The string `(n / d).toFixed(1)` for natural numbers `n` and `d > 0` in the
range of exact integers.  Away from a tie the double nearest to `n / d` rounds
as `n / d` does; at a tie (`10 n / d` ends in one half) the result depends on
which side of the tie that double lies, which `tieUp` says. -/
def toFixed1 (tieUp : Bool) (n d : Nat) : String :=
  let tenths : Nat :=
    if (20 * n) % (2 * d) = d then 10 * n / d + (if tieUp then 1 else 0)
    else (20 * n + d) / (2 * d)
  toString (tenths / 10) ++ "." ++ toString (tenths % 10)

/-- The utility `formatNumber(num)` (api.js, lines 175-182) on natural numbers. -/
def formatNumber (tieUp : Nat → Bool) (num : Nat) : String :=
  if num ≥ 1000000 then toFixed1 (tieUp num) num 1000000 ++ "M"
  else if num ≥ 1000 then toFixed1 (tieUp num) num 1000 ++ "K"
  else toString num

/-! ## Lemmas on the statements -/

theorem insertLike_fresh (rows : List AppLike) (u : Option Int) (a : Int)
    (ip : Option String) (h : rows.any (likeMatches a u ip) = false) :
    insertLike rows ⟨u, a, ip⟩ = some (rows ++ [⟨u, a, ip⟩]) := by
  have h1 : rows.any (fun x => decide (x.app_id = a) && sqlEq x.user_id u) = false := by
    rw [List.any_eq_false] at h ⊢
    intro x hx hc
    apply h x hx
    simp only [Bool.and_eq_true] at hc
    simp [likeMatches, hc.1, hc.2]
  have h2 : rows.any (fun x => decide (x.app_id = a) && sqlEq x.ip_address ip) = false := by
    rw [List.any_eq_false] at h ⊢
    intro x hx hc
    apply h x hx
    simp only [Bool.and_eq_true] at hc
    simp [likeMatches, hc.1, hc.2]
  simp [insertLike, h1, h2]

theorem insertNomination_fresh (rows : List Nomination) (u : Option Int) (a : Int)
    (ip : Option String) (h : rows.any (nominationMatches a u ip) = false) :
    insertNomination rows ⟨u, a, ip⟩ = some (rows ++ [⟨u, a, ip⟩]) := by
  have h1 : rows.any (fun x => decide (x.app_id = a) && sqlEq x.user_id u) = false := by
    rw [List.any_eq_false] at h ⊢
    intro x hx hc
    apply h x hx
    simp only [Bool.and_eq_true] at hc
    simp [nominationMatches, hc.1, hc.2]
  have h2 : rows.any (fun x => decide (x.app_id = a) && sqlEq x.ip_address ip) = false := by
    rw [List.any_eq_false] at h ⊢
    intro x hx hc
    apply h x hx
    simp only [Bool.and_eq_true] at hc
    simp [nominationMatches, hc.1, hc.2]
  simp [insertNomination, h1, h2]

theorem insertVote_fresh (rows : List Vote) (u : Option Int) (b a : SqlVal)
    (ip ua : Option String) (h : rows.any (voteMatches b u ip) = false) :
    insertVote rows ⟨u, b, a, ip, ua⟩ = some (rows ++ [⟨u, b, a, ip, ua⟩]) := by
  have h1 : rows.any (fun x => decide (x.battle_id = b) && sqlEq x.user_id u) = false := by
    rw [List.any_eq_false] at h ⊢
    intro x hx hc
    apply h x hx
    simp only [Bool.and_eq_true] at hc
    simp [voteMatches, hc.1, hc.2]
  have h2 : rows.any (fun x => decide (x.battle_id = b) && sqlEq x.ip_address ip) = false := by
    rw [List.any_eq_false] at h ⊢
    intro x hx hc
    apply h x hx
    simp only [Bool.and_eq_true] at hc
    simp [voteMatches, hc.1, hc.2]
  simp [insertVote, h1, h2]

theorem sqlEq_self {α : Type} [DecidableEq α] (x : α) : sqlEq (some x) (some x) = true := by
  simp [sqlEq]

theorem sqlEq_none_right {α : Type} [DecidableEq α] (o : Option α) : sqlEq o none = false := by
  cases o <;> rfl

theorem sqlEq_eq_true {α : Type} [DecidableEq α] (o p : Option α) :
    sqlEq o p = true ↔ ∃ x, o = some x ∧ p = some x := by
  cases o <;> cases p <;> simp [sqlEq, eq_comm]

/-- Updating a counter of `apps` changes neither `id` nor `uuid`, so the app
lookup finds the updated copy of the same row. -/
theorem find_app_map (apps : List App) (id : RouteId) (f : App → App)
    (hf : ∀ x, (f x).id = x.id ∧ (f x).uuid = x.uuid) :
    (apps.map f).find? (appMatches id) = (apps.find? (appMatches id)).map f := by
  rw [List.find?_map]
  congr 1
  apply congrArg (fun p => List.find? p apps)
  funext x
  simp [appMatches, (hf x).1, (hf x).2]

theorem findApp_addLikeCount (s : Store) (id : RouteId) (d a : Int) (rows : List AppLike) :
    findApp { s with app_likes := rows, apps := addLikeCount d a s.apps } id
      = (findApp s id).map fun x =>
          if x.id = a then { x with like_count := x.like_count + d } else x := by
  unfold findApp addLikeCount
  apply find_app_map
  intro x
  by_cases hx : x.id = a <;> simp [hx]

theorem findApp_addNominationCount (s : Store) (id : RouteId) (a : Int)
    (rows : List Nomination) :
    findApp { s with nominations := rows, apps := addNominationCount a s.apps } id
      = (findApp s id).map fun x =>
          if x.id = a then { x with nomination_count := x.nomination_count + 1 } else x := by
  unfold findApp addNominationCount
  apply find_app_map
  intro x
  by_cases hx : x.id = a <;> simp [hx]

theorem addLikeCount_cancel (a : Int) (apps : List App) :
    addLikeCount (-1) a (addLikeCount 1 a apps) = apps := by
  unfold addLikeCount
  rw [List.map_map]
  conv_rhs => rw [← List.map_id apps]
  apply List.map_congr_left
  intro x _
  by_cases hx : x.id = a
  · cases x
    simp_all
  · simp [hx]

/-- Each counter statement of CastVote maps the battles row by row and keeps
every row's identity and tally invariant. -/
theorem tally_kept (s : Store) (r : VoteRequest) :
    ∃ f : Battle → Battle, tally s r = s.battles.map f ∧ ∀ b, Battle.Kept b (f b) := by
  unfold tally
  have hid : ∃ f : Battle → Battle, s.battles = s.battles.map f ∧
      ∀ b, Battle.Kept b (f b) :=
    ⟨id, by simp, fun b => ⟨rfl, rfl, rfl, fun h => h⟩⟩
  split
  · exact hid
  · split
    · refine ⟨_, rfl, fun b => ?_⟩
      by_cases hb : SqlVal.int b.id = r.id
      · simp only [hb, if_true]
        refine ⟨rfl, rfl, rfl, fun h => ?_⟩
        simp only [Battle.tallyOk] at h ⊢
        omega
      · simp only [hb, if_false]
        exact ⟨rfl, rfl, rfl, fun h => h⟩
    · split
      · refine ⟨_, rfl, fun b => ?_⟩
        by_cases hb : SqlVal.int b.id = r.id
        · simp only [hb, if_true]
          refine ⟨rfl, rfl, rfl, fun h => ?_⟩
          simp only [Battle.tallyOk] at h ⊢
          omega
        · simp only [hb, if_false]
          exact ⟨rfl, rfl, rfl, fun h => h⟩
      · exact hid

theorem castVote_kept (s : Store) (r : VoteRequest) :
    ∃ f : Battle → Battle, (castVote s r).1.battles = s.battles.map f ∧
      ∀ b, Battle.Kept b (f b) := by
  have hid : ∃ f : Battle → Battle, s.battles = s.battles.map f ∧
      ∀ b, Battle.Kept b (f b) :=
    ⟨id, by simp, fun b => ⟨rfl, rfl, rfl, fun h => h⟩⟩
  unfold castVote voteHandler
  split
  · exact hid
  · split
    · exact hid
    · split
      · exact hid
      · rename_i rows _
        exact tally_kept { s with votes := rows } r

theorem runVotes_kept (rs : List VoteRequest) (s : Store) :
    ∃ f : Battle → Battle, (runVotes s rs).battles = s.battles.map f ∧
      ∀ b, Battle.Kept b (f b) := by
  induction rs generalizing s with
  | nil => exact ⟨id, by simp [runVotes], fun b => ⟨rfl, rfl, rfl, fun h => h⟩⟩
  | cons r rs ih =>
    obtain ⟨f, hf, kf⟩ := castVote_kept s r
    obtain ⟨g, hg, kg⟩ := ih (castVote s r).1
    refine ⟨g ∘ f, ?_, fun b => ?_⟩
    · have : runVotes s (r :: rs) = runVotes (castVote s r).1 rs := rfl
      rw [this, hg, hf, List.map_map]
    · obtain ⟨a1, a2, a3, a4⟩ := kf b
      obtain ⟨b1, b2, b3, b4⟩ := kg (f b)
      exact ⟨by simp [b1, a1], by simp [b2, a2], by simp [b3, a3], fun h => b4 (a4 h)⟩

theorem store_eta (s : Store) :
    ({ s with app_likes := s.app_likes, apps := s.apps } : Store) = s := by
  cases s
  rfl

theorem filter_unmatched (rows : List AppLike) (p : AppLike → Bool)
    (h : rows.any p = false) : rows.filter (fun x => !p x) = rows := by
  rw [List.filter_eq_self]
  rw [List.any_eq_false] at h
  intro x hx
  simp [h x hx]

theorem countP_filter_unmatched (rows : List AppLike) (a : Int) (p : AppLike → Bool)
    (hp : ∀ x, p x = true → x.app_id = a) :
    (rows.filter fun x => !p x).countP (fun x => decide (x.app_id = a)) + rows.countP p
      = rows.countP fun x => decide (x.app_id = a) := by
  induction rows with
  | nil => rfl
  | cons x xs ih =>
    cases hx : p x
    · by_cases hxa : x.app_id = a
      · simp [List.filter_cons, List.countP_cons, hx, hxa]
        omega
      · simp [List.filter_cons, List.countP_cons, hx, hxa]
        omega
    · have hxa := hp x hx
      simp [List.filter_cons, List.countP_cons, hx, hxa]
      omega

/-! ## The handlers, case by case -/

theorem toggleLike_fresh (s : Store) (r : AppRequest) (app : App)
    (hfa : findApp s r.id = some app)
    (hn : s.app_likes.any (likeMatches app.id r.userId r.ipAddress) = false) :
    toggleLike s r =
      ({ s with app_likes := s.app_likes ++ [⟨r.userId, app.id, r.ipAddress⟩],
                apps := addLikeCount 1 app.id s.apps },
        Response.okLiked "App liked" true) := by
  simp [toggleLike, likeHandler, hfa, hn, insertLike_fresh _ _ _ _ hn]

theorem toggleLike_existing (s : Store) (r : AppRequest) (app : App)
    (hfa : findApp s r.id = some app)
    (hm : s.app_likes.any (likeMatches app.id r.userId r.ipAddress) = true) :
    toggleLike s r =
      ({ s with app_likes :=
                  s.app_likes.filter fun x => !likeMatches app.id r.userId r.ipAddress x,
                apps := addLikeCount (-1) app.id s.apps },
        Response.okLiked "Like removed" false) := by
  simp [toggleLike, likeHandler, hfa, hm]

theorem nominate_fresh (s : Store) (r : AppRequest) (app : App)
    (hfa : findApp s r.id = some app)
    (hn : s.nominations.any (nominationMatches app.id r.userId r.ipAddress) = false) :
    nominate s r =
      ({ s with nominations := s.nominations ++ [⟨r.userId, app.id, r.ipAddress⟩],
                apps := addNominationCount app.id s.apps },
        Response.ok "App nominated for battle") := by
  simp [nominate, nominateHandler, hfa, hn, insertNomination_fresh _ _ _ _ hn]

theorem nominate_existing (s : Store) (r : AppRequest) (app : App)
    (hfa : findApp s r.id = some app)
    (hm : s.nominations.any (nominationMatches app.id r.userId r.ipAddress) = true) :
    nominate s r = (s, Response.fail 400 "Already nominated this app") := by
  simp [nominate, nominateHandler, hfa, hm]

theorem castVote_fresh (s : Store) (r : VoteRequest) (ht : r.app_id.truthy = true)
    (hn : s.votes.any (voteMatches r.id r.userId r.ipAddress) = false) :
    castVote s r =
      ({ s with votes := s.votes ++
                  [⟨r.userId, r.id, r.app_id.stored, r.ipAddress, r.userAgent⟩],
                battles := tally s r },
        Response.ok "Vote cast successfully") := by
  have ht' : tally { s with votes := s.votes ++
      [⟨r.userId, r.id, r.app_id.stored, r.ipAddress, r.userAgent⟩] } r = tally s r := rfl
  simp [castVote, voteHandler, ht, hn, insertVote_fresh _ _ _ _ _ _ hn, ht']

theorem castVote_existing (s : Store) (r : VoteRequest) (ht : r.app_id.truthy = true)
    (hm : s.votes.any (voteMatches r.id r.userId r.ipAddress) = true) :
    castVote s r = (s, Response.fail 400 "Already voted in this battle") := by
  simp [castVote, voteHandler, ht, hm]

/-- A CastVote answered with 200 is one that passed both guards. -/
theorem castVote_ok_inv (s : Store) (r : VoteRequest)
    (h : (castVote s r).2.status = 200) :
    r.app_id.truthy = true ∧
      s.votes.any (voteMatches r.id r.userId r.ipAddress) = false := by
  by_cases ht : r.app_id.truthy = true
  · cases hm : s.votes.any (voteMatches r.id r.userId r.ipAddress)
    · exact ⟨ht, rfl⟩
    · rw [castVote_existing s r ht hm] at h
      simp [Response.fail] at h
  · simp [castVote, voteHandler, ht, Response.fail] at h

/-- A Nominate answered with 200 found the app and no matching row. -/
theorem nominate_ok_inv (s : Store) (r : AppRequest)
    (h : (nominate s r).2.status = 200) :
    ∃ app, findApp s r.id = some app ∧
      s.nominations.any (nominationMatches app.id r.userId r.ipAddress) = false := by
  cases hfa : findApp s r.id with
  | none => simp [nominate, nominateHandler, hfa, Response.fail] at h
  | some app =>
    refine ⟨app, rfl, ?_⟩
    cases hm : s.nominations.any (nominationMatches app.id r.userId r.ipAddress)
    · rfl
    · rw [nominate_existing s r app hfa hm] at h
      simp [Response.fail] at h

/-- A Toggle-Like answered with `liked: true` found the app and no matching row. -/
theorem toggleLike_liked_inv (s : Store) (r : AppRequest)
    (h : (toggleLike s r).2.liked = some true) :
    ∃ app, findApp s r.id = some app ∧
      s.app_likes.any (likeMatches app.id r.userId r.ipAddress) = false := by
  cases hfa : findApp s r.id with
  | none => simp [toggleLike, likeHandler, hfa, Response.fail] at h
  | some app =>
    refine ⟨app, rfl, ?_⟩
    cases hm : s.app_likes.any (likeMatches app.id r.userId r.ipAddress)
    · rfl
    · rw [toggleLike_existing s r app hfa hm] at h
      simp [Response.okLiked] at h

/-- After a successful vote from address `a`, any present-`app_id` vote in the
same battle from address `a` is answered "Already voted", whoever sends it. -/
theorem castVote_same_address (s : Store) (r r' : VoteRequest) (a : String)
    (h : (castVote s r).2.status = 200) (hid : r'.id = r.id)
    (ha : r.ipAddress = some a) (ha' : r'.ipAddress = some a)
    (ht' : r'.app_id.truthy = true) :
    castVote (castVote s r).1 r' =
      ((castVote s r).1, Response.fail 400 "Already voted in this battle") := by
  obtain ⟨ht, hn⟩ := castVote_ok_inv s r h
  rw [castVote_fresh s r ht hn]
  apply castVote_existing _ _ ht'
  simp [voteMatches, hid, ha, ha', sqlEq]

/-- After a successful nomination from address `a`, any nomination of the same
app from address `a` is answered "Already nominated", whoever sends it. -/
theorem nominate_same_address (s : Store) (r r' : AppRequest) (a : String)
    (h : (nominate s r).2.status = 200) (hid : r'.id = r.id)
    (ha : r.ipAddress = some a) (ha' : r'.ipAddress = some a) :
    nominate (nominate s r).1 r' =
      ((nominate s r).1, Response.fail 400 "Already nominated this app") := by
  obtain ⟨app, hfa, hn⟩ := nominate_ok_inv s r h
  rw [nominate_fresh s r app hfa hn]
  have hfa' := findApp_addNominationCount s r.id app.id
    (s.nominations ++ [⟨r.userId, app.id, r.ipAddress⟩])
  rw [hfa] at hfa'
  simp only [Option.map_some', if_true] at hfa'
  rw [← hid] at hfa'
  apply nominate_existing _ _ _ hfa'
  simp [nominationMatches, ha, ha', sqlEq]

/-! ## The counter invariant of Toggle-Like (C1) -/

/-- C1, evaluated at the failing input.  In `store0` the counter invariant holds
(app 1 has like_count 0 and no `app_likes` row).  After the three Toggle-Like
requests of `driftRequests` app 1 has like_count 1 and no `app_likes` row: the
third request removes two rows and subtracts 1. -/
theorem toggleLike_counter_drift :
    (∀ a ∈ store0.apps, a.like_count = (likeRows store0 a.id : Int)) ∧
    (runLikes store0 driftRequests).apps = [⟨1, "app-one", 1, 0⟩] ∧
    (runLikes store0 driftRequests).app_likes = [] ∧
    likeRows (runLikes store0 driftRequests) 1 = 0 := by
  decide

/-! ## The tally invariant of CastVote (C2) -/

/-- C2.  A battle row that satisfies `total_votes = app1_votes + app2_votes`
still satisfies it after any finite sequence of CastVote requests (any battle
ids, app ids and callers); the row stays at its place in the table and keeps
its id and its two apps, which may be equal. -/
theorem runVotes_tallyOk (s : Store) (rs : List VoteRequest) (i : Nat) (b : Battle)
    (hb : s.battles[i]? = some b) (h : b.tallyOk) :
    ∃ b', (runVotes s rs).battles[i]? = some b' ∧ b'.id = b.id ∧
      b'.app1_id = b.app1_id ∧ b'.app2_id = b.app2_id ∧ b'.tallyOk := by
  obtain ⟨f, hf, kf⟩ := runVotes_kept rs s
  obtain ⟨k1, k2, k3, k4⟩ := kf b
  refine ⟨f b, ?_, k1, k2, k3, k4 h⟩
  rw [hf, List.getElem?_map, hb]
  rfl

/-- C2 at a battle of app 5 against itself, after two votes for app 5. -/
theorem runVotes_tallyOk_witness :
    selfBattle.tallyOk ∧
    ∃ b', (runVotes ⟨[], [], [], [selfBattle], []⟩
        [⟨SqlVal.int 1, AppIdArg.ofInt 5, some 7, some "10.0.0.1", none⟩,
         ⟨SqlVal.int 1, AppIdArg.ofInt 5, none, some "10.0.0.2", none⟩]).battles[0]?
          = some b' ∧ b'.id = selfBattle.id ∧
      b'.app1_id = selfBattle.app1_id ∧ b'.app2_id = selfBattle.app2_id ∧ b'.tallyOk :=
  ⟨by decide, runVotes_tallyOk _ _ 0 selfBattle rfl (by decide)⟩

/-! ## A vote for an app outside the battle (C3) -/

/-- C3 as stated fails: in `store0` battle 1 is between apps 1 and 2 and nobody
has voted, yet a vote for app 3 is answered with status 200 and adds a row to
`votes`. -/
theorem castVote_foreign_app_accepted :
    findBattle store0 voteForeign.id = some battle1 ∧
    voteForeign.app_id.looseNum ≠ some battle1.app1_id ∧
    voteForeign.app_id.looseNum ≠ some battle1.app2_id ∧
    store0.votes.any (voteMatches voteForeign.id voteForeign.userId voteForeign.ipAddress)
      = false ∧
    (castVote store0 voteForeign).2.status = 200 ∧
    (castVote store0 voteForeign).1.votes.length = store0.votes.length + 1 := by
  decide

/-- C3, amended.  For an existing battle and a present `app_id` that is neither
the battle's `app1_id` nor its `app2_id`, CastVote by a caller with no vote in
that battle answers 200 "Vote cast successfully", appends exactly one row to
`votes` (carrying the submitted `app_id`) and changes nothing else: the handler
has no validation of `app_id` against the battle. -/
theorem castVote_foreign_app (s : Store) (r : VoteRequest) (b : Battle)
    (hb : findBattle s r.id = some b) (ht : r.app_id.truthy = true)
    (h1 : r.app_id.looseNum ≠ some b.app1_id) (h2 : r.app_id.looseNum ≠ some b.app2_id)
    (hn : s.votes.any (voteMatches r.id r.userId r.ipAddress) = false) :
    castVote s r =
      ({ s with votes := s.votes ++
            [⟨r.userId, r.id, r.app_id.stored, r.ipAddress, r.userAgent⟩] },
        Response.ok "Vote cast successfully") := by
  have hfb : ∀ rows, findBattle { s with votes := rows } r.id = some b := fun _ => hb
  simp [castVote, voteHandler, ht, hn, insertVote_fresh _ _ _ _ _ _ hn, tally, hfb, h1, h2]

/-- C3 amended, at the vote for app 3 in battle 1 of `store0`. -/
theorem castVote_foreign_app_witness :
    castVote store0 voteForeign =
      ({ store0 with votes := store0.votes ++
            [⟨voteForeign.userId, voteForeign.id, voteForeign.app_id.stored,
              voteForeign.ipAddress, voteForeign.userAgent⟩] },
        Response.ok "Vote cast successfully") :=
  castVote_foreign_app store0 voteForeign battle1 (by decide) (by decide) (by decide)
    (by decide) (by decide)

/-! ## Voting twice in a battle (C4) -/

/-- C4.  If `votes` holds a row for the battle that carries the caller's verified
user id, or the caller's IP address when the caller is unauthenticated, CastVote
answers 400 and leaves the whole store (so `votes` and the battle's three
counters) unchanged, whatever `app_id` is; whenever an `app_id` is present the
body is "Already voted in this battle". -/
theorem castVote_already_voted (s : Store) (r : VoteRequest) (v : Vote)
    (hv : v ∈ s.votes) (hbat : v.battle_id = r.id)
    (hown : (∃ u, r.userId = some u ∧ v.user_id = some u) ∨
      (r.userId = none ∧ ∃ a, r.ipAddress = some a ∧ v.ip_address = some a)) :
    (castVote s r).1 = s ∧ (castVote s r).2.status = 400 ∧
      (r.app_id.truthy = true →
        (castVote s r).2 = Response.fail 400 "Already voted in this battle") := by
  have hm : s.votes.any (voteMatches r.id r.userId r.ipAddress) = true := by
    rw [List.any_eq_true]
    refine ⟨v, hv, ?_⟩
    rcases hown with ⟨u, hu, hvu⟩ | ⟨_, a, ha, hva⟩
    · simp [voteMatches, hbat, hu, hvu, sqlEq]
    · simp [voteMatches, hbat, ha, hva, sqlEq]
  by_cases ht : r.app_id.truthy = true
  · simp [castVote, voteHandler, ht, hm, Response.fail]
  · simp [castVote, voteHandler, ht, Response.fail]

/-- C4 after user 7 has voted for app 1 in battle 1: the same user, now calling
from another address, votes for app 2, the other side. -/
theorem castVote_already_voted_witness :
    (castVote (castVote store0 vote7).1
        ⟨SqlVal.int 1, AppIdArg.ofInt 2, some 7, some "10.0.0.9", none⟩).1
      = (castVote store0 vote7).1 ∧
    (castVote (castVote store0 vote7).1
        ⟨SqlVal.int 1, AppIdArg.ofInt 2, some 7, some "10.0.0.9", none⟩).2.status = 400 ∧
    ((AppIdArg.ofInt 2).truthy = true →
      (castVote (castVote store0 vote7).1
        ⟨SqlVal.int 1, AppIdArg.ofInt 2, some 7, some "10.0.0.9", none⟩).2
        = Response.fail 400 "Already voted in this battle") :=
  castVote_already_voted (castVote store0 vote7).1
    ⟨SqlVal.int 1, AppIdArg.ofInt 2, some 7, some "10.0.0.9", none⟩
    ⟨some 7, SqlVal.int 1, SqlVal.int 1, some "10.0.0.1", none⟩
    (by decide) rfl (Or.inl ⟨7, rfl, rfl⟩)

/-! ## Row change and counter change are separate statements (C5) -/

/-- C5 as stated fails: when the counter UPDATE of a like does not take effect,
the new `app_likes` row stays (one row, counter still 0) and the response is
the 200 success response. -/
theorem like_row_without_counter :
    (likeHandler false store0 like1).1.app_likes = [⟨some 1, 1, some "10.0.0.1"⟩] ∧
    (likeHandler false store0 like1).1.apps = store0.apps ∧
    (likeHandler false store0 like1).1 ≠ store0 ∧
    (likeHandler false store0 like1).2 = Response.okLiked "App liked" true := by
  decide

/-- C5, amended.  In each of Toggle-Like, Nominate and CastVote the row change
and the counter change are two statements with no transaction around them: if
the counter UPDATE does not take effect, the response and the association table
are exactly those of the run in which it does, while the counters (`apps`,
respectively `battles`) stay as they were before the request. -/
theorem counter_update_not_atomic (s : Store) (r : AppRequest) (v : VoteRequest) :
    ((likeHandler false s r).2 = (toggleLike s r).2 ∧
      (likeHandler false s r).1.app_likes = (toggleLike s r).1.app_likes ∧
      (likeHandler false s r).1.apps = s.apps) ∧
    ((nominateHandler false s r).2 = (nominate s r).2 ∧
      (nominateHandler false s r).1.nominations = (nominate s r).1.nominations ∧
      (nominateHandler false s r).1.apps = s.apps) ∧
    ((voteHandler false s v).2 = (castVote s v).2 ∧
      (voteHandler false s v).1.votes = (castVote s v).1.votes ∧
      (voteHandler false s v).1.battles = s.battles) := by
  refine ⟨?_, ?_, ?_⟩
  · unfold toggleLike likeHandler
    split
    · exact ⟨rfl, rfl, rfl⟩
    · split
      · exact ⟨rfl, rfl, rfl⟩
      · split <;> exact ⟨rfl, rfl, rfl⟩
  · unfold nominate nominateHandler
    split
    · exact ⟨rfl, rfl, rfl⟩
    · split
      · exact ⟨rfl, rfl, rfl⟩
      · split <;> exact ⟨rfl, rfl, rfl⟩
  · unfold castVote voteHandler
    split
    · exact ⟨rfl, rfl, rfl⟩
    · split
      · exact ⟨rfl, rfl, rfl⟩
      · split <;> exact ⟨rfl, rfl, rfl⟩


/-! ## Who counts as the same actor (C6, C7) -/

/-- C6 as stated fails: after verified user 7, calling from 10.0.0.1, has
nominated app 1, voted in battle 1 and liked app 1, the unauthenticated requests
from 10.0.0.1 are answered "Already nominated this app" and "Already voted in
this battle", and the Toggle-Like returns `liked: false` and removes user 7's
like row. -/
theorem same_address_visitor_is_duplicate :
    (nominate store0 nominate7).2.status = 200 ∧
    (nominate (nominate store0 nominate7).1 anonSameAddress).2
      = Response.fail 400 "Already nominated this app" ∧
    (castVote store0 vote7).2.status = 200 ∧
    (castVote (castVote store0 vote7).1 voteAnon).2
      = Response.fail 400 "Already voted in this battle" ∧
    (toggleLike store0 nominate7).2.liked = some true ∧
    (toggleLike (toggleLike store0 nominate7).1 anonSameAddress).2.liked = some false ∧
    (toggleLike (toggleLike store0 nominate7).1 anonSameAddress).1.app_likes = [] := by
  decide

/-- C6, amended.  A verified user's row records the caller's IP address as well,
and the duplicate check matches on user id OR IP address.  So after verified
user `u`, calling from address `a`, has nominated an app (status 200), voted in
a battle (status 200) or liked an app (`liked: true`), an unauthenticated
request from `a` is treated as a duplicate of that action: its Nominate is
answered 400 "Already nominated this app", its CastVote (with an `app_id`
present) 400 "Already voted in this battle", and its Toggle-Like returns
`liked: false` and leaves no like row of `u` on that app. -/
theorem visitor_shares_actor (s : Store) (id : RouteId) (u : Int) (a : String)
    (bid : SqlVal) (x y : AppIdArg) (ua ub : Option String) :
    ((nominate s ⟨id, some u, some a⟩).2.status = 200 →
      (nominate (nominate s ⟨id, some u, some a⟩).1 ⟨id, none, some a⟩).2
        = Response.fail 400 "Already nominated this app") ∧
    ((castVote s ⟨bid, x, some u, some a, ua⟩).2.status = 200 → y.truthy = true →
      (castVote (castVote s ⟨bid, x, some u, some a, ua⟩).1 ⟨bid, y, none, some a, ub⟩).2
        = Response.fail 400 "Already voted in this battle") ∧
    (∀ app, findApp s id = some app →
      (toggleLike s ⟨id, some u, some a⟩).2.liked = some true →
      (toggleLike (toggleLike s ⟨id, some u, some a⟩).1 ⟨id, none, some a⟩).2
          = Response.okLiked "Like removed" false ∧
        ∀ l ∈ (toggleLike (toggleLike s ⟨id, some u, some a⟩).1 ⟨id, none, some a⟩).1.app_likes,
          ¬ (l.app_id = app.id ∧ l.user_id = some u)) := by
  refine ⟨fun h => ?_, fun h hy => ?_, fun app hfa h => ?_⟩
  · rw [nominate_same_address s _ ⟨id, none, some a⟩ a h rfl rfl rfl]
  · rw [castVote_same_address s _ ⟨bid, y, none, some a, ub⟩ a h rfl rfl rfl hy]
  · obtain ⟨app', hfa', hn⟩ := toggleLike_liked_inv s _ h
    simp only at hfa' hn
    rw [hfa] at hfa'
    cases hfa'
    rw [toggleLike_fresh s _ app hfa hn]
    have hf := findApp_addLikeCount s id 1 app.id (s.app_likes ++ [⟨some u, app.id, some a⟩])
    rw [hfa] at hf
    simp only [Option.map_some', if_true] at hf
    have hm : (s.app_likes ++ [(⟨some u, app.id, some a⟩ : AppLike)]).any
        (likeMatches app.id none (some a)) = true := by
      simp [likeMatches, sqlEq]
    rw [toggleLike_existing _ ⟨id, none, some a⟩ _ hf hm]
    refine ⟨rfl, ?_⟩
    intro l hl hc
    simp only [List.mem_filter, List.mem_append, List.mem_singleton] at hl
    rcases hl with ⟨hl | hl, hnm⟩
    · rw [List.any_eq_false] at hn
      apply hn l hl
      simp [likeMatches, hc.1, hc.2, sqlEq]
    · subst hl
      simp [likeMatches, sqlEq] at hnm


/-- C6 amended, at user 7 and a visitor, both calling from 10.0.0.1, on `store0`. -/
theorem visitor_shares_actor_witness :
    (nominate (nominate store0 nominate7).1 anonSameAddress).2
      = Response.fail 400 "Already nominated this app" ∧
    (castVote (castVote store0 vote7).1 voteAnon).2
      = Response.fail 400 "Already voted in this battle" ∧
    ((toggleLike (toggleLike store0 nominate7).1 anonSameAddress).2
        = Response.okLiked "Like removed" false ∧
      ∀ l ∈ (toggleLike (toggleLike store0 nominate7).1 anonSameAddress).1.app_likes,
        ¬ (l.app_id = app1.id ∧ l.user_id = some 7)) :=
  ⟨(visitor_shares_actor store0 rid1 7 "10.0.0.1" (SqlVal.int 1) (AppIdArg.ofInt 1)
      (AppIdArg.ofInt 2) none none).1 (by decide),
    (visitor_shares_actor store0 rid1 7 "10.0.0.1" (SqlVal.int 1) (AppIdArg.ofInt 1)
      (AppIdArg.ofInt 2) none none).2.1 (by decide) (by decide),
    (visitor_shares_actor store0 rid1 7 "10.0.0.1" (SqlVal.int 1) (AppIdArg.ofInt 1)
      (AppIdArg.ofInt 2) none none).2.2 app1 (by decide) (by decide)⟩

/-- C7 as stated fails: after verified user 7 has voted in battle 1 and nominated
app 1 from 10.0.0.1, verified user 8, calling from the same address, gets
"Already voted in this battle" and "Already nominated this app". -/
theorem other_user_same_address_is_duplicate :
    (castVote store0 vote7).2.status = 200 ∧
    (castVote (castVote store0 vote7).1 vote8).2
      = Response.fail 400 "Already voted in this battle" ∧
    (nominate store0 nominate7).2.status = 200 ∧
    (nominate (nominate store0 nominate7).1 nominate8).2
      = Response.fail 400 "Already nominated this app" := by
  decide

/-- C7, amended.  The duplicate check of a verified caller matches on the user
id OR the IP address, so the acting identity is not the user id alone: after a
verified user has voted in a battle (or nominated an app) from address `a`, the
CastVote in that battle (or Nominate on that app) of another verified user
calling from `a` is answered 400 "Already voted in this battle" (respectively
"Already nominated this app"). -/
theorem users_share_actor (s : Store) (id : RouteId) (u1 u2 : Int) (hne : u1 ≠ u2)
    (a : String) (bid : SqlVal) (x y : AppIdArg) (ua ub : Option String) :
    ((castVote s ⟨bid, x, some u1, some a, ua⟩).2.status = 200 → y.truthy = true →
      (castVote (castVote s ⟨bid, x, some u1, some a, ua⟩).1
          ⟨bid, y, some u2, some a, ub⟩).2
        = Response.fail 400 "Already voted in this battle") ∧
    ((nominate s ⟨id, some u1, some a⟩).2.status = 200 →
      (nominate (nominate s ⟨id, some u1, some a⟩).1 ⟨id, some u2, some a⟩).2
        = Response.fail 400 "Already nominated this app") := by
  have _ := hne
  refine ⟨fun h hy => ?_, fun h => ?_⟩
  · rw [castVote_same_address s _ ⟨bid, y, some u2, some a, ub⟩ a h rfl rfl rfl hy]
  · rw [nominate_same_address s _ ⟨id, some u2, some a⟩ a h rfl rfl rfl]

/-- C7 amended, at users 7 and 8 calling from 10.0.0.1 on `store0`. -/
theorem users_share_actor_witness :
    (7 : Int) ≠ 8 ∧
    (castVote (castVote store0 vote7).1 vote8).2
      = Response.fail 400 "Already voted in this battle" ∧
    (nominate (nominate store0 nominate7).1 nominate8).2
      = Response.fail 400 "Already nominated this app" :=
  ⟨by decide,
    (users_share_actor store0 rid1 7 8 (by decide) "10.0.0.1" (SqlVal.int 1)
      (AppIdArg.ofInt 1) (AppIdArg.ofInt 2) none none).1 (by decide) (by decide),
    (users_share_actor store0 rid1 7 8 (by decide) "10.0.0.1" (SqlVal.int 1)
      (AppIdArg.ofInt 1) (AppIdArg.ofInt 2) none none).2 (by decide)⟩

/-! ## Toggling a like twice (C8) -/

/-- C8.  For an existing app and a caller with a user id and/or an IP address
such that no `app_likes` row of the app carries that user id or that address,
two consecutive Toggle-Like calls return `liked: true` and then `liked: false`,
the app's like_count after the second call is what it was before the first, and
indeed the whole store is back to what it was. -/
theorem toggleLike_twice (s : Store) (r : AppRequest) (app : App)
    (hfa : findApp s r.id = some app)
    (hid : r.userId ≠ none ∨ r.ipAddress ≠ none)
    (hn : ∀ l ∈ s.app_likes, l.app_id = app.id →
      (∀ u, r.userId = some u → l.user_id ≠ some u) ∧
      (∀ a, r.ipAddress = some a → l.ip_address ≠ some a)) :
    (toggleLike s r).2.liked = some true ∧
    (toggleLike (toggleLike s r).1 r).2.liked = some false ∧
    (findApp (toggleLike (toggleLike s r).1 r).1 r.id).map (fun x => x.like_count)
      = some app.like_count ∧
    (toggleLike (toggleLike s r).1 r).1 = s := by
  have hn' : s.app_likes.any (likeMatches app.id r.userId r.ipAddress) = false := by
    rw [List.any_eq_false]
    intro l hl hc
    simp only [likeMatches, Bool.and_eq_true, Bool.or_eq_true, decide_eq_true_eq,
      sqlEq_eq_true] at hc
    obtain ⟨happ, ⟨u, hlu, hru⟩ | ⟨a, hla, hra⟩⟩ := hc
    · exact (hn l hl happ).1 u hru hlu
    · exact (hn l hl happ).2 a hra hla
  have hf := findApp_addLikeCount s r.id 1 app.id
    (s.app_likes ++ [⟨r.userId, app.id, r.ipAddress⟩])
  rw [hfa] at hf
  simp only [Option.map_some', if_true] at hf
  have hrow : likeMatches app.id r.userId r.ipAddress ⟨r.userId, app.id, r.ipAddress⟩
      = true := by
    rcases hid with h | h
    · cases hu : r.userId with
      | none => exact absurd hu h
      | some u => simp [likeMatches, sqlEq]
    · cases ha : r.ipAddress with
      | none => exact absurd ha h
      | some a => simp [likeMatches, sqlEq]
  have hm : (s.app_likes ++ [(⟨r.userId, app.id, r.ipAddress⟩ : AppLike)]).any
      (likeMatches app.id r.userId r.ipAddress) = true := by
    simp [List.any_append, hrow]
  have h2 := toggleLike_existing _ r _ hf hm
  rw [toggleLike_fresh s r app hfa hn']
  refine ⟨rfl, ?_, ?_, ?_⟩
  · rw [h2]
    rfl
  · rw [h2]
    simp only [List.filter_append, filter_unmatched _ _ hn', addLikeCount_cancel]
    simp [hrow, store_eta, hfa]
  · rw [h2]
    simp only [List.filter_append, filter_unmatched _ _ hn', addLikeCount_cancel]
    simp [hrow, store_eta]


/-- C8 at user 1 liking app 1 of `store0` twice. -/
theorem toggleLike_twice_witness :
    (toggleLike store0 like1).2.liked = some true ∧
    (toggleLike (toggleLike store0 like1).1 like1).2.liked = some false ∧
    (findApp (toggleLike (toggleLike store0 like1).1 like1).1 like1.id).map
        (fun x => x.like_count) = some app1.like_count ∧
    (toggleLike (toggleLike store0 like1).1 like1).1 = store0 :=
  toggleLike_twice store0 like1 app1 (by decide) (by decide) (by decide)

/-! ## What an unlike removes (C9) -/

/-- C9 as stated fails: in `twoLikes` app 1 has two like rows, (user 1,
10.0.0.1) and (user 2, 10.0.0.2); Toggle-Like by user 1 calling from 10.0.0.2
returns `liked: false` and the number of rows of app 1 drops from 2 to 0. -/
theorem unlike_removes_two_rows :
    findApp twoLikes rid1 = some ⟨1, "app-one", 2, 0⟩ ∧
    likeRows twoLikes 1 = 2 ∧
    (toggleLike twoLikes ⟨rid1, some 1, some "10.0.0.2"⟩).2.liked = some false ∧
    likeRows (toggleLike twoLikes ⟨rid1, some 1, some "10.0.0.2"⟩).1 1 = 0 := by
  decide

/-- C9, amended.  Whenever Toggle-Like returns `liked: false` on app S, it
deletes every `app_likes` row of S that carries the caller's user id or the
caller's IP address, which is at least one row, and the number of rows of S
drops by the number of those rows; when exactly one row matches, the number of
rows of S drops by exactly 1 and S.like_count drops by exactly 1. -/
theorem toggleLike_unlike (s : Store) (r : AppRequest) (app : App)
    (hfa : findApp s r.id = some app)
    (hl : (toggleLike s r).2.liked = some false) :
    (toggleLike s r).1.app_likes
      = s.app_likes.filter (fun x => !likeMatches app.id r.userId r.ipAddress x) ∧
    1 ≤ s.app_likes.countP (likeMatches app.id r.userId r.ipAddress) ∧
    likeRows (toggleLike s r).1 app.id
        + s.app_likes.countP (likeMatches app.id r.userId r.ipAddress)
      = likeRows s app.id ∧
    (s.app_likes.countP (likeMatches app.id r.userId r.ipAddress) = 1 →
      likeRows (toggleLike s r).1 app.id + 1 = likeRows s app.id ∧
      (findApp (toggleLike s r).1 r.id).map (fun x => x.like_count)
        = some (app.like_count - 1)) := by
  have hm : s.app_likes.any (likeMatches app.id r.userId r.ipAddress) = true := by
    cases hm : s.app_likes.any (likeMatches app.id r.userId r.ipAddress)
    · have hn : s.app_likes.any (likeMatches app.id r.userId r.ipAddress) = false := hm
      rw [toggleLike_fresh s r app hfa hn] at hl
      simp [Response.okLiked] at hl
    · rfl
  have hcount := countP_filter_unmatched s.app_likes app.id
    (likeMatches app.id r.userId r.ipAddress) (fun x hx => by
      simp only [likeMatches, Bool.and_eq_true, decide_eq_true_eq] at hx
      exact hx.1)
  have hpos : 1 ≤ s.app_likes.countP (likeMatches app.id r.userId r.ipAddress) := by
    rw [List.any_eq_true] at hm
    obtain ⟨x, hx, hpx⟩ := hm
    exact List.countP_pos_iff.mpr ⟨x, hx, hpx⟩
  have hf := findApp_addLikeCount s r.id (-1) app.id
    (s.app_likes.filter fun x => !likeMatches app.id r.userId r.ipAddress x)
  rw [hfa] at hf
  simp only [Option.map_some', if_true] at hf
  rw [toggleLike_existing s r app hfa hm]
  refine ⟨rfl, hpos, hcount, fun h1 => ⟨?_, ?_⟩⟩
  · rw [← h1]
    exact hcount
  · rw [hf]
    simp
    omega

/-- C9 amended, at the second of two likes of app 1 by user 1 on `store0`. -/
theorem toggleLike_unlike_witness :
    (toggleLike (toggleLike store0 like1).1 like1).1.app_likes
      = (toggleLike store0 like1).1.app_likes.filter
          (fun x => !likeMatches 1 like1.userId like1.ipAddress x) ∧
    1 ≤ (toggleLike store0 like1).1.app_likes.countP
          (likeMatches 1 like1.userId like1.ipAddress) ∧
    likeRows (toggleLike (toggleLike store0 like1).1 like1).1 1
        + (toggleLike store0 like1).1.app_likes.countP
            (likeMatches 1 like1.userId like1.ipAddress)
      = likeRows (toggleLike store0 like1).1 1 ∧
    ((toggleLike store0 like1).1.app_likes.countP
          (likeMatches 1 like1.userId like1.ipAddress) = 1 →
      likeRows (toggleLike (toggleLike store0 like1).1 like1).1 1 + 1
        = likeRows (toggleLike store0 like1).1 1 ∧
      (findApp (toggleLike (toggleLike store0 like1).1 like1).1 like1.id).map
          (fun x => x.like_count) = some ((1 : Int) - 1)) :=
  toggleLike_unlike (toggleLike store0 like1).1 like1 ⟨1, "app-one", 1, 0⟩
    (by decide) (by decide)

/-! ## Nominating twice (C10) -/

/-- C10.  For an existing app and a caller with a verified user id or a
non-null IP address, a second Nominate by the same caller is answered 400
"Already nominated this app" and leaves the store (so the app's
nomination_count and the `nominations` table) exactly as the first call left it. -/
theorem nominate_twice (s : Store) (r : AppRequest) (app : App)
    (hfa : findApp s r.id = some app)
    (hid : r.userId ≠ none ∨ r.ipAddress ≠ none) :
    (nominate (nominate s r).1 r).2 = Response.fail 400 "Already nominated this app" ∧
    (nominate (nominate s r).1 r).1 = (nominate s r).1 := by
  cases hm : s.nominations.any (nominationMatches app.id r.userId r.ipAddress)
  · have hn : s.nominations.any (nominationMatches app.id r.userId r.ipAddress) = false := hm
    have hrow : nominationMatches app.id r.userId r.ipAddress
        ⟨r.userId, app.id, r.ipAddress⟩ = true := by
      rcases hid with h | h
      · cases hu : r.userId with
        | none => exact absurd hu h
        | some u => simp [nominationMatches, sqlEq]
      · cases ha : r.ipAddress with
        | none => exact absurd ha h
        | some a => simp [nominationMatches, sqlEq]
    have hf := findApp_addNominationCount s r.id app.id
      (s.nominations ++ [⟨r.userId, app.id, r.ipAddress⟩])
    rw [hfa] at hf
    simp only [Option.map_some', if_true] at hf
    rw [nominate_fresh s r app hfa hn]
    have h2 := nominate_existing _ r _ hf (by simp [List.any_append, hrow])
    rw [h2]
    exact ⟨rfl, rfl⟩
  · rw [nominate_existing s r app hfa hm, nominate_existing s r app hfa hm]
    exact ⟨rfl, rfl⟩

/-- C10 at user 7 nominating app 1 of `store0` twice. -/
theorem nominate_twice_witness :
    (nominate (nominate store0 nominate7).1 nominate7).2
      = Response.fail 400 "Already nominated this app" ∧
    (nominate (nominate store0 nominate7).1 nominate7).1 = (nominate store0 nominate7).1 :=
  nominate_twice store0 nominate7 app1 (by decide) (by decide)

/-! ## The two phases make up the handlers -/

/-- The nominate handler is its check phase followed, when the check lets it
through, by its INSERT phase on the same store. -/
theorem nominateHandler_phases (updOk : Bool) (s : Store) (r : AppRequest) :
    nominateHandler updOk s r =
      match nominateCheck s r with
      | Except.error resp => (s, resp)
      | Except.ok app => nominateInsert updOk s app r := by
  unfold nominateHandler nominateCheck nominateInsert
  cases findApp s r.id with
  | none => rfl
  | some app =>
    by_cases hm : s.nominations.any (nominationMatches app.id r.userId r.ipAddress) = true
    · simp [hm]
    · simp [hm]

/-- The vote handler is its check phase followed, when the check lets it
through, by its INSERT phase on the same store. -/
theorem voteHandler_phases (updOk : Bool) (s : Store) (r : VoteRequest) :
    voteHandler updOk s r =
      match voteCheck s r with
      | some resp => (s, resp)
      | none => voteInsert updOk s r := by
  unfold voteHandler voteCheck voteInsert
  by_cases ht : r.app_id.truthy = true
  · by_cases hm : s.votes.any (voteMatches r.id r.userId r.ipAddress) = true
    · simp [ht, hm]
    · simp [ht, hm]
  · simp [ht]

/-! ## The nominations counter (C11) -/

/-- A Nominate request either leaves the store as it is and is not answered with
200, or finds the app, finds no matching row, appends one row and adds 1. -/
theorem nominate_cases (s : Store) (r : AppRequest) :
    ((nominate s r).1 = s ∧ (nominate s r).2.status ≠ 200) ∨
    ∃ app, findApp s r.id = some app ∧
      s.nominations.any (nominationMatches app.id r.userId r.ipAddress) = false ∧
      nominate s r =
        ({ s with nominations := s.nominations ++ [⟨r.userId, app.id, r.ipAddress⟩],
                  apps := addNominationCount app.id s.apps },
          Response.ok "App nominated for battle") := by
  cases hfa : findApp s r.id with
  | none =>
    left
    simp [nominate, nominateHandler, hfa, Response.fail]
  | some app =>
    cases hm : s.nominations.any (nominationMatches app.id r.userId r.ipAddress)
    · right
      exact ⟨app, rfl, hm, nominate_fresh s r app hfa hm⟩
    · left
      rw [nominate_existing s r app hfa hm]
      simp [Response.fail]

theorem nominate_counted (s : Store) (r : AppRequest) (h : NominationsCounted s) :
    NominationsCounted (nominate s r).1 := by
  rcases nominate_cases s r with ⟨h1, _⟩ | ⟨app, _, _, h1⟩
  · rw [h1]
    exact h
  · rw [h1]
    intro a ha
    simp only [addNominationCount, List.mem_map] at ha
    obtain ⟨a0, ha0, rfl⟩ := ha
    have h0 := h a0 ha0
    simp only [nominationRows] at h0 ⊢
    by_cases hid : a0.id = app.id
    · simp only [hid, if_true, List.countP_append, List.countP_cons, List.countP_nil,
        decide_True, Nat.zero_add]
      simp only [hid] at h0
      simp [h0]
    · simp only [hid, if_false, List.countP_append, List.countP_cons, List.countP_nil]
      have : ¬ app.id = a0.id := fun h => hid h.symm
      simp [this, h0]

/-- C11.  From a store in which every app's nomination_count is the number of
its `nominations` rows, the same holds after any finite sequence of Nominate
requests.  Moreover, on any store, a Nominate answered with 200 appends exactly
one row (the found app, the caller) and adds exactly 1 to that app's
nomination_count, and a Nominate not answered with 200 changes nothing. -/
theorem runNominations_counted (s : Store) (rs : List AppRequest)
    (h : NominationsCounted s) :
    NominationsCounted (runNominations s rs) ∧
    ∀ r, ((nominate s r).2.status = 200 →
        ∃ app, findApp s r.id = some app ∧
          (nominate s r).1.nominations
            = s.nominations ++ [⟨r.userId, app.id, r.ipAddress⟩] ∧
          (nominate s r).1.apps = addNominationCount app.id s.apps) ∧
      ((nominate s r).2.status ≠ 200 → (nominate s r).1 = s) := by
  constructor
  · induction rs generalizing s with
    | nil => exact h
    | cons r rs ih => exact ih (nominate s r).1 (nominate_counted s r h)
  · intro r
    rcases nominate_cases s r with ⟨h1, h2⟩ | ⟨app, hfa, _, h1⟩
    · exact ⟨fun h200 => absurd h200 h2, fun _ => h1⟩
    · refine ⟨fun _ => ⟨app, hfa, ?_, ?_⟩, fun hne => ?_⟩
      · rw [h1]
      · rw [h1]
      · rw [h1] at hne
        simp [Response.ok] at hne

/-- C11 on `store0`, for two nominations of app 1 and one of an unknown app. -/
theorem runNominations_counted_witness :
    NominationsCounted store0 ∧
    NominationsCounted (runNominations store0 [nominate7, nominate8, requestNoApp]) ∧
    ∀ r, ((nominate store0 r).2.status = 200 →
        ∃ app, findApp store0 r.id = some app ∧
          (nominate store0 r).1.nominations
            = store0.nominations ++ [⟨r.userId, app.id, r.ipAddress⟩] ∧
          (nominate store0 r).1.apps = addNominationCount app.id store0.apps) ∧
      ((nominate store0 r).2.status ≠ 200 → (nominate store0 r).1 = store0) :=
  ⟨by decide, runNominations_counted store0 _ (by decide)⟩


/-! ## A vote that counts (C12) -/

/-- A counter statement of CastVote changes no battle's `id`, so the battle
lookup finds the updated copy of the same row. -/
theorem find_battle_map (bs : List Battle) (id : SqlVal) (f : Battle → Battle)
    (hf : ∀ x, (f x).id = x.id) :
    (bs.map f).find? (fun b => decide (SqlVal.int b.id = id))
      = (bs.find? fun b => decide (SqlVal.int b.id = id)).map f := by
  rw [List.find?_map]
  congr 1
  apply congrArg (fun p => List.find? p bs)
  funext x
  simp [hf x]

theorem findBattle_id (s : Store) (id : SqlVal) (b : Battle)
    (hb : findBattle s id = some b) : SqlVal.int b.id = id := by
  have := List.find?_some hb
  simpa using this

/-- C12.  When the caller has no vote in battle B and a present `app_id` equals
B.app1_id, CastVote appends exactly one row to `votes` (battle B, the submitted
app_id, the caller), adds exactly 1 to app1_votes and to total_votes, leaves
app2_votes as it is and answers 200 "Vote cast successfully"; respectively for
B.app2_id and app2_votes when app1_id and app2_id differ. -/
theorem castVote_counts (s : Store) (r : VoteRequest) (b : Battle)
    (hb : findBattle s r.id = some b) (ht : r.app_id.truthy = true)
    (hn : s.votes.any (voteMatches r.id r.userId r.ipAddress) = false) :
    (r.app_id.looseNum = some b.app1_id →
      castVote s r =
        ({ s with votes := s.votes ++
                    [⟨r.userId, r.id, r.app_id.stored, r.ipAddress, r.userAgent⟩],
                  battles := voteForApp1 r.id s.battles },
          Response.ok "Vote cast successfully") ∧
      findBattle (castVote s r).1 r.id =
        some { b with app1_votes := b.app1_votes + 1,
                      total_votes := b.total_votes + 1 }) ∧
    (r.app_id.looseNum = some b.app2_id → b.app1_id ≠ b.app2_id →
      castVote s r =
        ({ s with votes := s.votes ++
                    [⟨r.userId, r.id, r.app_id.stored, r.ipAddress, r.userAgent⟩],
                  battles := voteForApp2 r.id s.battles },
          Response.ok "Vote cast successfully") ∧
      findBattle (castVote s r).1 r.id =
        some { b with app2_votes := b.app2_votes + 1,
                      total_votes := b.total_votes + 1 }) := by
  have hid := findBattle_id s r.id b hb
  have hfresh := castVote_fresh s r ht hn
  unfold findBattle at hb
  constructor
  · intro h1
    have ht1 : tally s r = voteForApp1 r.id s.battles := by
      simp [tally, findBattle, hb, h1]
    rw [hfresh, ht1]
    refine ⟨rfl, ?_⟩
    simp only [findBattle, voteForApp1]
    rw [find_battle_map _ _ _ (fun x => by by_cases hx : SqlVal.int x.id = r.id <;> simp [hx]),
      hb]
    simp [hid]
  · intro h2 hne
    have ht2 : tally s r = voteForApp2 r.id s.battles := by
      simp [tally, findBattle, hb, h2, Ne.symm hne]
    rw [hfresh, ht2]
    refine ⟨rfl, ?_⟩
    simp only [findBattle, voteForApp2]
    rw [find_battle_map _ _ _ (fun x => by by_cases hx : SqlVal.int x.id = r.id <;> simp [hx]),
      hb]
    simp [hid]

/-- C12 on `store0`: user 7 votes for app 1, user 8 votes for app 2. -/
theorem castVote_counts_witness :
    (castVote store0 vote7 =
        ({ store0 with
            votes := store0.votes ++
              [⟨vote7.userId, vote7.id, vote7.app_id.stored, vote7.ipAddress, vote7.userAgent⟩],
            battles := voteForApp1 vote7.id store0.battles },
          Response.ok "Vote cast successfully") ∧
      findBattle (castVote store0 vote7).1 vote7.id =
        some { battle1 with app1_votes := battle1.app1_votes + 1,
                            total_votes := battle1.total_votes + 1 }) ∧
    (castVote store0 vote8 =
        ({ store0 with
            votes := store0.votes ++
              [⟨vote8.userId, vote8.id, vote8.app_id.stored, vote8.ipAddress, vote8.userAgent⟩],
            battles := voteForApp2 vote8.id store0.battles },
          Response.ok "Vote cast successfully") ∧
      findBattle (castVote store0 vote8).1 vote8.id =
        some { battle1 with app2_votes := battle1.app2_votes + 1,
                            total_votes := battle1.total_votes + 1 }) :=
  ⟨(castVote_counts store0 vote7 battle1 (by decide) (by decide) (by decide)).1 (by decide),
    (castVote_counts store0 vote8 battle1 (by decide) (by decide) (by decide)).2
      (by decide) (by decide)⟩

/-! ## One vote per identity and battle (C13) -/

/-- CastVote leaves `votes` alone or appends the caller's row, the latter only
when no row of the battle matches the caller. -/
theorem castVote_votes (s : Store) (r : VoteRequest) :
    (castVote s r).1.votes = s.votes ∨
    (s.votes.any (voteMatches r.id r.userId r.ipAddress) = false ∧
      (castVote s r).1.votes = s.votes ++
        [⟨r.userId, r.id, r.app_id.stored, r.ipAddress, r.userAgent⟩]) := by
  by_cases ht : r.app_id.truthy = true
  · cases hm : s.votes.any (voteMatches r.id r.userId r.ipAddress)
    · right
      rw [castVote_fresh s r ht hm]
      exact ⟨rfl, rfl⟩
    · left
      rw [castVote_existing s r ht hm]
  · left
    simp [castVote, voteHandler, ht]

theorem votesUnique_append (vs : List Vote) (u : Option Int) (b a : SqlVal)
    (ip ua : Option String) (h : votesUnique vs)
    (hn : vs.any (voteMatches b u ip) = false) :
    votesUnique (vs ++ [⟨u, b, a, ip, ua⟩]) := by
  unfold votesUnique at h ⊢
  rw [List.pairwise_append]
  refine ⟨h, List.pairwise_singleton _ _, ?_⟩
  intro v hv w hw
  rw [List.mem_singleton] at hw
  subst hw
  rw [List.any_eq_false] at hn
  have hv' := hn v hv
  constructor
  · rintro ⟨h1, h2, h3⟩
    apply hv'
    simp only at h1 h3
    cases hu : v.user_id with
    | none => exact absurd hu h2
    | some x =>
      rw [hu] at h3
      simp [voteMatches, h1, hu, ← h3, sqlEq]
  · rintro ⟨h1, h2, h3⟩
    apply hv'
    simp only at h1 h3
    cases hu : v.ip_address with
    | none => exact absurd hu h2
    | some x =>
      rw [hu] at h3
      simp [voteMatches, h1, hu, ← h3, sqlEq]

theorem castVote_unique (s : Store) (r : VoteRequest) (h : votesUnique s.votes) :
    votesUnique (castVote s r).1.votes := by
  rcases castVote_votes s r with h1 | ⟨hn, h1⟩
  · rw [h1]
    exact h
  · rw [h1]
    exact votesUnique_append _ _ _ _ _ _ h hn

theorem runVotes_unique (rs : List VoteRequest) (s : Store) (h : votesUnique s.votes) :
    votesUnique (runVotes s rs).votes := by
  induction rs generalizing s with
  | nil => exact h
  | cons r rs ih => exact ih (castVote s r).1 (castVote_unique s r h)

/-- C13.  After any finite sequence of CastVote requests that starts from an
empty `votes` table, no two rows have the same battle_id and the same non-null
user_id, and no two rows have the same battle_id and the same non-null
ip_address. -/
theorem runVotes_one_vote_each (s : Store) (rs : List VoteRequest) (h : s.votes = []) :
    votesUnique (runVotes s rs).votes :=
  runVotes_unique rs s (by rw [h]; exact List.Pairwise.nil)

/-- C13 on `store0`, for five votes of which three are repeats. -/
theorem runVotes_one_vote_each_witness :
    store0.votes = [] ∧
    votesUnique (runVotes store0 [vote7, vote8, voteAnon, voteNoBattle, vote7]).votes :=
  ⟨rfl, runVotes_one_vote_each store0 _ rfl⟩


/-! ## An INSERT that hits a UNIQUE constraint (C14) -/

/-- C14, evaluated at the failing input.  The existence check of a second
request by user 7 runs on `store0` and finds nothing; by the time its INSERT
runs, the first request's row is in (`nominated7`, `voted7`).  The INSERT
violates the UNIQUE constraint, and both handlers answer 500 "Database error",
not the 400 of the existence check. -/
theorem insert_unique_violation_is_500 :
    nominateCheck store0 nominate7 = Except.ok app1 ∧
    insertNomination nominated7.nominations
      ⟨nominate7.userId, app1.id, nominate7.ipAddress⟩ = none ∧
    nominateInsert true nominated7 app1 nominate7
      = (nominated7, Response.fail 500 "Database error") ∧
    voteCheck store0 vote7 = none ∧
    insertVote voted7.votes
      ⟨vote7.userId, vote7.id, vote7.app_id.stored, vote7.ipAddress, vote7.userAgent⟩
      = none ∧
    voteInsert true voted7 vote7 = (voted7, Response.fail 500 "Database error") := by
  refine ⟨rfl, ?_, ?_, ?_, ?_, ?_⟩ <;> decide

/-! ## Votes in different battles (C15) -/

/-- C15.  A CastVote addressed to another battle than B2 leaves B2's row (so its
app1_votes, app2_votes and total_votes) as it is, and a later CastVote in B2,
by that caller or any other, gets the response it would have got without it. -/
theorem castVote_other_battle (s : Store) (r1 r2 : VoteRequest) (i : Nat) (b2 : Battle)
    (hb2 : s.battles[i]? = some b2) (hne : SqlVal.int b2.id ≠ r1.id)
    (h2 : r2.id = SqlVal.int b2.id) :
    (castVote s r1).1.battles[i]? = some b2 ∧
    (castVote (castVote s r1).1 r2).2 = (castVote s r2).2 := by
  constructor
  · have hmap : ∀ f : Battle → Battle, (∀ b, SqlVal.int b.id ≠ r1.id → f b = b) →
        (s.battles.map f)[i]? = some b2 := by
      intro f hf
      rw [List.getElem?_map, hb2]
      simp [hf b2 hne]
    have hcases : (castVote s r1).1.battles = s.battles ∨
        (castVote s r1).1.battles = voteForApp1 r1.id s.battles ∨
        (castVote s r1).1.battles = voteForApp2 r1.id s.battles := by
      unfold castVote voteHandler
      split
      · exact Or.inl rfl
      · split
        · exact Or.inl rfl
        · split
          · exact Or.inl rfl
          · simp only [if_true, tally, findBattle]
            split
            · exact Or.inl rfl
            · split
              · exact Or.inr (Or.inl rfl)
              · split
                · exact Or.inr (Or.inr rfl)
                · exact Or.inl rfl
    rcases hcases with h | h | h
    · rw [h, hb2]
    · rw [h]
      exact hmap _ (fun b hb => by simp [hb])
    · rw [h]
      exact hmap _ (fun b hb => by simp [hb])
  · have hne' : r1.id ≠ r2.id := by
      rw [h2]
      exact fun h => hne h.symm
    have hany : (castVote s r1).1.votes.any (voteMatches r2.id r2.userId r2.ipAddress)
        = s.votes.any (voteMatches r2.id r2.userId r2.ipAddress) := by
      rcases castVote_votes s r1 with h | ⟨_, h⟩
      · rw [h]
      · rw [h, List.any_append]
        simp [voteMatches, hne']
    by_cases ht : r2.app_id.truthy = true
    · cases hm : s.votes.any (voteMatches r2.id r2.userId r2.ipAddress)
      · rw [castVote_fresh s r2 ht hm, castVote_fresh _ r2 ht (hany.trans hm)]
      · rw [castVote_existing s r2 ht hm, castVote_existing _ r2 ht (hany.trans hm)]
    · simp [castVote, voteHandler, ht]

/-- C15 on `store0`: a vote in battle 999, then user 7's vote in battle 1. -/
theorem castVote_other_battle_witness :
    (castVote store0 voteNoBattle).1.battles[0]? = some battle1 ∧
    (castVote (castVote store0 voteNoBattle).1 vote7).2 = (castVote store0 vote7).2 :=
  castVote_other_battle store0 voteNoBattle vote7 0 battle1 rfl (by decide) rfl

/-! ## A vote in a battle that does not exist (C16) -/

/-- C16, evaluated at the failing input.  `store0` has no battle 999, yet a vote
addressed to battle 999 is answered 200 "Vote cast successfully" and its row is
inserted into `votes`. -/
theorem castVote_missing_battle_accepted :
    findBattle store0 voteNoBattle.id = none ∧
    castVote store0 voteNoBattle =
      ({ store0 with
          votes := [⟨some 7, SqlVal.int 999, SqlVal.int 1, some "10.0.0.1", none⟩] },
        Response.ok "Vote cast successfully") := by
  decide

/-! ## An id that matches no app (C17) -/

/-- C17.  When the route id is no app's uuid and no app's numeric id, Toggle-Like
and Nominate answer 404 "App not found" and leave the whole store (so
`app_likes`, `nominations` and every counter) as it is. -/
theorem app_not_found (s : Store) (r : AppRequest)
    (h : ∀ a ∈ s.apps, a.uuid ≠ r.id.text ∧ r.id.num ≠ some a.id) :
    toggleLike s r = (s, Response.fail 404 "App not found") ∧
    nominate s r = (s, Response.fail 404 "App not found") := by
  have hfa : findApp s r.id = none := by
    unfold findApp
    rw [List.find?_eq_none]
    intro a ha
    simp [appMatches, (h a ha).1, (h a ha).2]
  simp [toggleLike, likeHandler, nominate, nominateHandler, hfa]

/-- C17 on `store0` for the id 404. -/
theorem app_not_found_witness :
    toggleLike store0 requestNoApp = (store0, Response.fail 404 "App not found") ∧
    nominate store0 requestNoApp = (store0, Response.fail 404 "App not found") :=
  app_not_found store0 requestNoApp (by decide)

/-! ## Counters under a vote for an app outside the battle (C18) -/

/-- C18.  For an existing battle and an `app_id` that is neither its app1_id nor
its app2_id, CastVote by any caller leaves the `battles` table, and so the
battle's app1_votes, app2_votes and total_votes, as it is. -/
theorem castVote_foreign_app_counters (s : Store) (r : VoteRequest) (b : Battle)
    (hb : findBattle s r.id = some b)
    (h1 : r.app_id.looseNum ≠ some b.app1_id) (h2 : r.app_id.looseNum ≠ some b.app2_id) :
    (castVote s r).1.battles = s.battles ∧ findBattle (castVote s r).1 r.id = some b := by
  have hbat : (castVote s r).1.battles = s.battles := by
    unfold castVote voteHandler
    split
    · rfl
    · split
      · rfl
      · split
        · rfl
        · have hfb : ∀ rows, findBattle { s with votes := rows } r.id = some b := fun _ => hb
          simp [tally, hfb, h1, h2]
  refine ⟨hbat, ?_⟩
  unfold findBattle at hb ⊢
  rw [hbat, hb]

/-- C18 on `voted7`, where battle 1 stands at 1, 0 and 1: a vote for app 3. -/
theorem castVote_foreign_app_counters_witness :
    (castVote voted7 voteForeign).1.battles = voted7.battles ∧
    findBattle (castVote voted7 voteForeign).1 voteForeign.id
      = some ⟨1, 1, 2, 1, 0, 1⟩ :=
  castVote_foreign_app_counters voted7 voteForeign ⟨1, 1, 2, 1, 0, 1⟩
    (by decide) (by decide) (by decide)


/-! ## Concurrent votes by one identity (C19) -/

/-- Once the row is in, every later INSERT of the same race fails and is answered
with 500; the store no longer changes. -/
theorem race_losers (s : Store) (r : VoteRequest) (k : Nat) (acc : List Response)
    (h : insertVote s.votes ⟨r.userId, r.id, r.app_id.stored, r.ipAddress, r.userAgent⟩
      = none) :
    (List.replicate k (r, (none : Option Response))).foldl voteAfterCheck (s, acc)
      = (s, acc ++ List.replicate k (Response.fail 500 "Database error")) := by
  induction k generalizing acc with
  | zero => simp
  | succ k ih =>
    have hstep : voteAfterCheck (s, acc) (r, none)
        = (s, acc ++ [Response.fail 500 "Database error"]) := by
      simp [voteAfterCheck, voteInsert, h]
    rw [List.replicate_succ, List.foldl_cons, hstep, ih]
    simp [List.replicate_succ]

/-- C19, evaluated at the failing inputs.  For every N = n + 2, N concurrent
votes of user 7 for app 1 in battle 1 of `store0`, in the schedule in which all
existence checks run before the first INSERT, get one 200 response and N - 1
responses 500 "Database error", none of them 400; one row is inserted and
battle 1 ends at 1, 0 and 1. -/
theorem concurrent_votes_get_500 (n : Nat) :
    votesChecksFirst store0 (List.replicate (n + 2) vote7)
      = (voted7, Response.ok "Vote cast successfully"
          :: List.replicate (n + 1) (Response.fail 500 "Database error")) ∧
    voted7.votes = [⟨some 7, SqlVal.int 1, SqlVal.int 1, some "10.0.0.1", none⟩] ∧
    voted7.battles = [⟨1, 1, 2, 1, 0, 1⟩] := by
  refine ⟨?_, by decide, by decide⟩
  have hc : voteCheck store0 vote7 = none := by decide
  have h1 : voteAfterCheck (store0, []) (vote7, none)
      = (voted7, [Response.ok "Vote cast successfully"]) := by decide
  have hl := race_losers voted7 vote7 (n + 1) [Response.ok "Vote cast successfully"]
    (by decide)
  unfold votesChecksFirst
  rw [List.map_replicate, hc, List.replicate_succ, List.foldl_cons, h1, hl]
  rfl

/-! ## The owner-only routes without a verified user (C20) -/

/-- C20 as stated fails for submit app: a request that carries no verified user
and uploads a file that is not an image is answered 500 "Server error", and
one that uploads an image of 11 MB is answered 400 "File too large", not 401;
multer refuses the upload before the handler tests `req.user`. -/
theorem unauthenticated_upload_refused :
    submitAnonText.user = none ∧
    submitApp db0 submitAnonText = (db0, Response.fail 500 "Server error") ∧
    submitAnonHuge.user = none ∧
    submitApp db0 submitAnonHuge = (db0, Response.fail 400 "File too large") := by
  decide

/-- C20, amended.  Whenever the request carries no verified user (`req.user` is
null), create collaboration post and express interest answer 401
"Authentication required" and leave the database as it is.  Submit app leaves
the database as it is too, and answers 401 "Authentication required" unless
multer refuses the request's upload: it does so when the request is not
multipart and when `upload.fields` passes every file part; a refused upload is
answered by the error handling middleware, with 400 "File too large" or 500
"Server error", before the handler is reached. -/
theorem owner_routes_need_user (d : Database) (a : SubmitAppRequest)
    (p : CreatePostRequest) (i : InterestRequest)
    (ha : a.user = none) (hp : p.user = none) (hi : i.user = none) :
    (submitApp d a).1 = d ∧
    (a.upload = none →
      (submitApp d a).2 = Response.fail 401 "Authentication required") ∧
    (∀ parts files, a.upload = some parts → uploadFields parts = UploadResult.passed files →
      (submitApp d a).2 = Response.fail 401 "Authentication required") ∧
    (∀ parts e, a.upload = some parts → uploadFields parts = UploadResult.refused e →
      (submitApp d a).2 = errorMiddleware e ∧
      ((submitApp d a).2 = Response.fail 400 "File too large" ∨
        (submitApp d a).2 = Response.fail 500 "Server error")) ∧
    createPost d p = (d, Response.fail 401 "Authentication required") ∧
    expressInterest d i = (d, Response.fail 401 "Authentication required") := by
  have hh : ∀ files, submitAppHandler d a files
      = (d, Response.fail 401 "Authentication required") := by
    intro files
    simp [submitAppHandler, ha]
  refine ⟨?_, ?_, ?_, ?_, ?_, ?_⟩
  · unfold submitApp
    split
    · rw [hh]
    · split
      · rfl
      · rw [hh]
  · intro hu
    simp [submitApp, hu, hh]
  · intro parts files hu hf
    simp [submitApp, hu, hf, hh]
  · intro parts e hu hf
    have hr : (submitApp d a).2 = errorMiddleware e := by
      simp [submitApp, hu, hf]
    refine ⟨hr, ?_⟩
    rw [hr]
    cases e
    · exact Or.inl rfl
    · exact Or.inr rfl
    · exact Or.inr rfl
  · simp [createPost, hp]
  · simp [expressInterest, hi]

/-- C20 amended, on `db0`: a submission with a PNG icon, one with a text file, a
collaboration post and an expression of interest, none with a verified user. -/
theorem owner_routes_need_user_witness :
    (submitApp db0 submitAnon).1 = db0 ∧
    (submitApp db0 submitAnon).2 = Response.fail 401 "Authentication required" ∧
    (submitApp db0 submitAnonText).1 = db0 ∧
    (submitApp db0 submitAnonText).2 = Response.fail 500 "Server error" ∧
    createPost db0 postAnon = (db0, Response.fail 401 "Authentication required") ∧
    expressInterest db0 interestAnon
      = (db0, Response.fail 401 "Authentication required") :=
  ⟨(owner_routes_need_user db0 submitAnon postAnon interestAnon rfl rfl rfl).1,
    (owner_routes_need_user db0 submitAnon postAnon interestAnon rfl rfl rfl).2.2.1
      [⟨"icon", "image/png", 2048, "icon-1.png"⟩] ⟨some "icon-1.png", none⟩ rfl (by decide),
    (owner_routes_need_user db0 submitAnonText postAnon interestAnon rfl rfl rfl).1,
    ((owner_routes_need_user db0 submitAnonText postAnon interestAnon rfl rfl rfl).2.2.2.1
      [⟨"icon", "text/plain", 12, "icon-1.txt"⟩] UploadError.notAnImage rfl (by decide)).1,
    (owner_routes_need_user db0 submitAnon postAnon interestAnon rfl rfl rfl).2.2.2.2.1,
    (owner_routes_need_user db0 submitAnon postAnon interestAnon rfl rfl rfl).2.2.2.2.2⟩

/-! ## Counters up to an offset: Toggle-Like and Nominate on any store -/

/-- A Toggle-Like request leaves the store as it is, or appends one row and adds
1, or deletes the matching rows and subtracts 1. -/
theorem toggleLike_cases (s : Store) (r : AppRequest) :
    (toggleLike s r).1 = s ∨
    (∃ app, findApp s r.id = some app ∧
      s.app_likes.any (likeMatches app.id r.userId r.ipAddress) = false ∧
      (toggleLike s r).1 =
        { s with app_likes := s.app_likes ++ [⟨r.userId, app.id, r.ipAddress⟩],
                 apps := addLikeCount 1 app.id s.apps }) ∨
    (∃ app, findApp s r.id = some app ∧
      s.app_likes.any (likeMatches app.id r.userId r.ipAddress) = true ∧
      (toggleLike s r).1 =
        { s with app_likes :=
                   s.app_likes.filter fun x => !likeMatches app.id r.userId r.ipAddress x,
                 apps := addLikeCount (-1) app.id s.apps }) := by
  cases hfa : findApp s r.id with
  | none =>
    left
    simp [toggleLike, likeHandler, hfa]
  | some app =>
    cases hm : s.app_likes.any (likeMatches app.id r.userId r.ipAddress)
    · right; left
      exact ⟨app, rfl, hm, by rw [toggleLike_fresh s r app hfa hm]⟩
    · right; right
      exact ⟨app, rfl, hm, by rw [toggleLike_existing s r app hfa hm]⟩

/-- A DELETE on one app's likes leaves the number of rows of any other app. -/
theorem countP_filter_other (rows : List AppLike) (a b : Int) (p : AppLike → Bool)
    (hp : ∀ x, p x = true → x.app_id = a) (hab : b ≠ a) :
    (rows.filter fun x => !p x).countP (fun x => decide (x.app_id = b))
      = rows.countP fun x => decide (x.app_id = b) := by
  induction rows with
  | nil => rfl
  | cons x xs ih =>
    cases hx : p x
    · simp [List.filter_cons, List.countP_cons, hx, ih]
    · have hxa := hp x hx
      have : ¬ x.app_id = b := fun h => hab (h ▸ hxa)
      simp [List.filter_cons, List.countP_cons, hx, ih, this]

/-- Toggle-Like keeps every like_count at or above its offset plus the number of
rows: a like adds one row and 1, an unlike removes at least one row and
subtracts 1. -/
theorem toggleLike_likesFrom (off : Int → Int) (s : Store) (r : AppRequest)
    (h : LikesFrom off s) : LikesFrom off (toggleLike s r).1 := by
  rcases toggleLike_cases s r with h1 | ⟨app, _, _, h1⟩ | ⟨app, _, hm, h1⟩
  · rw [h1]
    exact h
  · rw [h1]
    intro a ha
    simp only [addLikeCount, List.mem_map] at ha
    obtain ⟨a0, ha0, rfl⟩ := ha
    have hl := h a0 ha0
    simp only [likeRows] at hl ⊢
    by_cases hid : a0.id = app.id
    · simp only [hid, if_true, List.countP_append, List.countP_cons, List.countP_nil,
        decide_True, Nat.zero_add]
      simp only [hid] at hl
      push_cast
      omega
    · have : ¬ app.id = a0.id := fun h => hid h.symm
      simp only [hid, if_false, List.countP_append, List.countP_cons, List.countP_nil]
      simp [this]
      exact hl
  · rw [h1]
    have hp : ∀ x, likeMatches app.id r.userId r.ipAddress x = true → x.app_id = app.id := by
      intro x hx
      simp only [likeMatches, Bool.and_eq_true, decide_eq_true_eq] at hx
      exact hx.1
    have hpos : 1 ≤ s.app_likes.countP (likeMatches app.id r.userId r.ipAddress) := by
      rw [List.any_eq_true] at hm
      obtain ⟨x, hx, hpx⟩ := hm
      exact List.countP_pos_iff.mpr ⟨x, hx, hpx⟩
    intro a ha
    simp only [addLikeCount, List.mem_map] at ha
    obtain ⟨a0, ha0, rfl⟩ := ha
    have hl := h a0 ha0
    simp only [likeRows] at hl ⊢
    by_cases hid : a0.id = app.id
    · have hc := countP_filter_unmatched s.app_likes app.id _ hp
      simp only [hid, if_true]
      simp only [hid] at hl
      omega
    · have hc := countP_filter_other s.app_likes app.id a0.id _ hp hid
      simp only [hid, if_false]
      rw [hc]
      exact hl

/-- Toggle-Like rewrites `apps` row by row and touches only `like_count`. -/
theorem toggleLike_apps (s : Store) (r : AppRequest) :
    (toggleLike s r).1.nominations = s.nominations ∧
    ∃ f : App → App, (toggleLike s r).1.apps = s.apps.map f ∧
      ∀ a, (f a).id = a.id ∧ (f a).nomination_count = a.nomination_count := by
  rcases toggleLike_cases s r with h1 | ⟨app, _, _, h1⟩ | ⟨app, _, _, h1⟩
  · rw [h1]
    exact ⟨rfl, id, by simp, fun a => ⟨rfl, rfl⟩⟩
  · rw [h1]
    refine ⟨rfl, _, rfl, fun a => ?_⟩
    by_cases hid : a.id = app.id <;> simp [hid]
  · rw [h1]
    refine ⟨rfl, _, rfl, fun a => ?_⟩
    by_cases hid : a.id = app.id <;> simp [hid]

/-- Toggle-Like does not disturb the nominations counters. -/
theorem toggleLike_nominationsFrom (off : Int → Int) (s : Store) (r : AppRequest)
    (h : NominationsFrom off s) : NominationsFrom off (toggleLike s r).1 := by
  obtain ⟨hn, f, hf, hk⟩ := toggleLike_apps s r
  intro a ha
  rw [hf, List.mem_map] at ha
  obtain ⟨a0, ha0, rfl⟩ := ha
  have h0 := h a0 ha0
  simp only [nominationRows] at h0 ⊢
  rw [hn, (hk a0).1, (hk a0).2]
  exact h0

/-- Nominate rewrites `apps` row by row and touches only `nomination_count`. -/
theorem nominate_apps (s : Store) (r : AppRequest) :
    (nominate s r).1.app_likes = s.app_likes ∧
    ∃ f : App → App, (nominate s r).1.apps = s.apps.map f ∧
      ∀ a, (f a).id = a.id ∧ (f a).like_count = a.like_count := by
  rcases nominate_cases s r with ⟨h1, _⟩ | ⟨app, _, _, h1⟩
  · rw [h1]
    exact ⟨rfl, id, by simp, fun a => ⟨rfl, rfl⟩⟩
  · rw [h1]
    refine ⟨rfl, _, rfl, fun a => ?_⟩
    by_cases hid : a.id = app.id <;> simp [hid]

/-- Nominate does not disturb the like counters. -/
theorem nominate_likesFrom (off : Int → Int) (s : Store) (r : AppRequest)
    (h : LikesFrom off s) : LikesFrom off (nominate s r).1 := by
  obtain ⟨hn, f, hf, hk⟩ := nominate_apps s r
  intro a ha
  rw [hf, List.mem_map] at ha
  obtain ⟨a0, ha0, rfl⟩ := ha
  have h0 := h a0 ha0
  simp only [likeRows] at h0 ⊢
  rw [hn, (hk a0).1, (hk a0).2]
  exact h0

/-- Nominate keeps every nomination_count at its offset plus the number of rows. -/
theorem nominate_nominationsFrom (off : Int → Int) (s : Store) (r : AppRequest)
    (h : NominationsFrom off s) : NominationsFrom off (nominate s r).1 := by
  rcases nominate_cases s r with ⟨h1, _⟩ | ⟨app, _, _, h1⟩
  · rw [h1]
    exact h
  · rw [h1]
    intro a ha
    simp only [addNominationCount, List.mem_map] at ha
    obtain ⟨a0, ha0, rfl⟩ := ha
    have hn := h a0 ha0
    simp only [nominationRows] at hn ⊢
    by_cases hid : a0.id = app.id
    · simp only [hid, if_true, List.countP_append, List.countP_cons, List.countP_nil,
        decide_True, Nat.zero_add]
      simp only [hid] at hn
      push_cast
      omega
    · have : ¬ app.id = a0.id := fun h => hid h.symm
      simp only [hid, if_false, List.countP_append, List.countP_cons, List.countP_nil]
      simp [this]
      exact hn

/-- Both counter properties survive any sequence of likes and nominations. -/
theorem runEngagements_counters (offL offN : Int → Int) (es : List Engagement)
    (s : Store) (hl : LikesFrom offL s) (hn : NominationsFrom offN s) :
    LikesFrom offL (runEngagements s es) ∧ NominationsFrom offN (runEngagements s es) := by
  induction es generalizing s with
  | nil => exact ⟨hl, hn⟩
  | cons e es ih =>
    cases e with
    | like r =>
      exact ih (toggleLike s r).1 (toggleLike_likesFrom offL s r hl)
        (toggleLike_nominationsFrom offN s r hn)
    | nominate r =>
      exact ih (nominate s r).1 (nominate_likesFrom offL s r hl)
        (nominate_nominationsFrom offN s r hn)

/-- The like counter property survives any sequence of Toggle-Like requests. -/
theorem runLikes_likesFrom (off : Int → Int) (rs : List AppRequest)
    (s : Store) (h : LikesFrom off s) : LikesFrom off (runLikes s rs) := by
  induction rs generalizing s with
  | nil => exact h
  | cons r rs ih => exact ih (toggleLike s r).1 (toggleLike_likesFrom off s r h)

/-! ## like_count never falls below the number of rows (C27) -/

/-- C27.  From a store in which every app's like_count is the number of its
`app_likes` rows, after any finite sequence of Toggle-Like requests every app's
like_count is at least the number of its `app_likes` rows, and so is never
negative. -/
theorem runLikes_count_covers_rows (s : Store) (rs : List AppRequest)
    (h : ∀ a ∈ s.apps, a.like_count = (likeRows s a.id : Int)) :
    ∀ a ∈ (runLikes s rs).apps,
      (likeRows (runLikes s rs) a.id : Int) ≤ a.like_count ∧ 0 ≤ a.like_count := by
  have h0 : LikesFrom (fun _ => 0) s := by
    intro a ha
    rw [h a ha]
    simp
  intro a ha
  have := runLikes_likesFrom _ rs s h0 a ha
  simp only [Int.zero_add] at this
  exact ⟨this, le_trans (Int.ofNat_nonneg _) this⟩

/-- C27 on `store0` after the three requests of `driftRequests`, where the
counter ends above the number of rows. -/
theorem runLikes_count_covers_rows_witness :
    (∀ a ∈ store0.apps, a.like_count = (likeRows store0 a.id : Int)) ∧
    ∀ a ∈ (runLikes store0 driftRequests).apps,
      (likeRows (runLikes store0 driftRequests) a.id : Int) ≤ a.like_count ∧
        0 ≤ a.like_count :=
  ⟨by decide, runLikes_count_covers_rows store0 driftRequests (by decide)⟩

/-! ## The seeded store (C24) -/

/-- Toggle-Like and Nominate rewrite `apps` row by row and change no row's `id`
or `uuid`; so does any sequence of them. -/
theorem runEngagements_apps (es : List Engagement) (s : Store) :
    ∃ f : App → App, (runEngagements s es).apps = s.apps.map f ∧
      ∀ a, (f a).id = a.id ∧ (f a).uuid = a.uuid := by
  induction es generalizing s with
  | nil => exact ⟨id, by simp [runEngagements], fun a => ⟨rfl, rfl⟩⟩
  | cons e es ih =>
    have hstep : ∃ g : App → App, (engage s e).apps = s.apps.map g ∧
        ∀ a, (g a).id = a.id ∧ (g a).uuid = a.uuid := by
      cases e with
      | like r =>
        rcases toggleLike_cases s r with h1 | ⟨app, _, _, h1⟩ | ⟨app, _, _, h1⟩
        · exact ⟨id, by simp [engage, h1], fun a => ⟨rfl, rfl⟩⟩
        · refine ⟨_, by simp only [engage, h1]; rfl, fun a => ?_⟩
          by_cases hid : a.id = app.id <;> simp [hid]
        · refine ⟨_, by simp only [engage, h1]; rfl, fun a => ?_⟩
          by_cases hid : a.id = app.id <;> simp [hid]
      | nominate r =>
        rcases nominate_cases s r with ⟨h1, _⟩ | ⟨app, _, _, h1⟩
        · exact ⟨id, by simp [engage, h1], fun a => ⟨rfl, rfl⟩⟩
        · refine ⟨_, by simp only [engage, h1]; rfl, fun a => ?_⟩
          by_cases hid : a.id = app.id <;> simp [hid]
    obtain ⟨g, hg, kg⟩ := hstep
    obtain ⟨f, hf, kf⟩ := ih (engage s e)
    refine ⟨f ∘ g, ?_, fun a => ?_⟩
    · have : runEngagements s (e :: es) = runEngagements (engage s e) es := rfl
      rw [this, hf, hg, List.map_map]
    · exact ⟨by simp [(kf (g a)).1, (kg a).1], by simp [(kf (g a)).2, (kg a).2]⟩

/-- With no app in the store every Toggle-Like and Nominate is answered 404 and
the store stays as it is. -/
theorem runEngagements_unseeded (es : List Engagement) :
    runEngagements unseededStore es = unseededStore := by
  induction es with
  | nil => rfl
  | cons e es ih =>
    have : engage unseededStore e = unseededStore := by
      cases e with
      | like r => simp [engage, toggleLike, likeHandler, findApp, unseededStore]
      | nominate r => simp [engage, nominate, nominateHandler, findApp, unseededStore]
    show runEngagements (engage unseededStore e) es = unseededStore
    rw [this, ih]

/-- C24 as stated fails: in the store `insertSampleData` seeds (here with its
INSERTs executed in the order of the source), `app_likes` and `nominations` are
empty, yet no seeded app has like_count or nomination_count equal to its number
of rows (they are 847, 623, 445 and 156, 89, 67). -/
theorem seed_counters_not_row_counts :
    (seedStore (sampleApps "u1" "u2" "u3")).app_likes = [] ∧
    (seedStore (sampleApps "u1" "u2" "u3")).nominations = [] ∧
    (seedStore (sampleApps "u1" "u2" "u3")).apps
      = [⟨1, "u1", 847, 156⟩, ⟨2, "u2", 623, 89⟩, ⟨3, "u3", 445, 67⟩] ∧
    (∀ a ∈ (seedStore (sampleApps "u1" "u2" "u3")).apps,
      a.like_count ≠ (likeRows (seedStore (sampleApps "u1" "u2" "u3")) a.id : Int) ∧
      a.nomination_count
        ≠ (nominationRows (seedStore (sampleApps "u1" "u2" "u3")) a.id : Int)) := by
  decide

/-- C24, amended.  When `insertSampleData` seeds the store, in whatever order its
three app INSERTs execute, `app_likes` and `nominations` are empty and each
seeded app carries the preset counters of its sample object; at all times from
there, that is after any finite sequence of Toggle-Like and Nominate requests,
each seeded app's nomination_count is its preset value plus the number of its
`nominations` rows and its like_count is at least its preset value plus the
number of its `app_likes` rows.  When `insertSampleData` returns at its guard,
no app is seeded and the store stays empty under such requests. -/
theorem seed_counters_are_offsets (u1 u2 u3 : String) (order : List SampleApp)
    (hperm : order.Perm (sampleApps u1 u2 u3)) (es : List Engagement) :
    (seedStore order).app_likes = [] ∧
    (seedStore order).nominations = [] ∧
    (∀ (i : Nat) (x : SampleApp), order[i]? = some x →
      ∃ a, (runEngagements (seedStore order) es).apps[i]? = some a ∧
        a.id = (i : Int) + 1 ∧ a.uuid = x.uuid ∧
        a.nomination_count = x.nomination_count
          + (nominationRows (runEngagements (seedStore order) es) a.id : Int) ∧
        x.like_count + (likeRows (runEngagements (seedStore order) es) a.id : Int)
          ≤ a.like_count) ∧
    runEngagements unseededStore es = unseededStore := by
  refine ⟨rfl, rfl, ?_, runEngagements_unseeded es⟩
  have hlen : order.length = 3 := by
    rw [hperm.length_eq]
    rfl
  obtain ⟨x0, x1, x2, rfl⟩ : ∃ x0 x1 x2, order = [x0, x1, x2] := by
    match order, hlen with
    | [x0, x1, x2], _ => exact ⟨x0, x1, x2, rfl⟩
  have hl : LikesFrom (seededLikeCount [x0, x1, x2]) (seedStore [x0, x1, x2]) := by
    intro a ha
    simp only [seedStore, insertSampleApps, List.enum, List.enumFrom, List.map_cons,
      List.map_nil, List.mem_cons, List.mem_singleton, List.not_mem_nil, or_false] at ha
    rcases ha with rfl | rfl | rfl <;>
      simp [seededLikeCount, insertSampleApps, List.enum, List.enumFrom, likeRows, seedStore]
  have hn : NominationsFrom (seededNominationCount [x0, x1, x2])
      (seedStore [x0, x1, x2]) := by
    intro a ha
    simp only [seedStore, insertSampleApps, List.enum, List.enumFrom, List.map_cons,
      List.map_nil, List.mem_cons, List.mem_singleton, List.not_mem_nil, or_false] at ha
    rcases ha with rfl | rfl | rfl <;>
      simp [seededNominationCount, insertSampleApps, List.enum, List.enumFrom,
        nominationRows, seedStore]
  obtain ⟨h1, h2⟩ := runEngagements_counters _ _ es _ hl hn
  obtain ⟨f, hf, kf⟩ := runEngagements_apps es (seedStore [x0, x1, x2])
  have key : ∀ (i : Nat) (a0 : App), (seedStore [x0, x1, x2]).apps[i]? = some a0 →
      ∃ a, (runEngagements (seedStore [x0, x1, x2]) es).apps[i]? = some a ∧
        a.id = a0.id ∧ a.uuid = a0.uuid ∧
        a.nomination_count = seededNominationCount [x0, x1, x2] a0.id
          + (nominationRows (runEngagements (seedStore [x0, x1, x2]) es) a.id : Int) ∧
        seededLikeCount [x0, x1, x2] a0.id
          + (likeRows (runEngagements (seedStore [x0, x1, x2]) es) a.id : Int)
          ≤ a.like_count := by
    intro i a0 hi
    have hget : (runEngagements (seedStore [x0, x1, x2]) es).apps[i]? = some (f a0) := by
      rw [hf, List.getElem?_map, hi]
      rfl
    have hmem := List.getElem?_mem hget
    refine ⟨f a0, hget, (kf a0).1, (kf a0).2, ?_, ?_⟩
    · rw [← (kf a0).1]
      exact h2 (f a0) hmem
    · rw [← (kf a0).1]
      exact h1 (f a0) hmem
  intro i x hi
  match i, hi with
  | 0, hi =>
    simp only [List.getElem?_cons_zero, Option.some.injEq] at hi
    subst hi
    obtain ⟨a, g1, g2, g3, g4, g5⟩ := key 0 ⟨1, x0.uuid, x0.like_count, x0.nomination_count⟩ rfl
    refine ⟨a, g1, by simpa using g2, g3, ?_, ?_⟩
    · simpa [seededNominationCount, insertSampleApps, List.enum, List.enumFrom] using g4
    · simpa [seededLikeCount, insertSampleApps, List.enum, List.enumFrom] using g5
  | 1, hi =>
    simp only [List.getElem?_cons_succ, List.getElem?_cons_zero, Option.some.injEq] at hi
    subst hi
    obtain ⟨a, g1, g2, g3, g4, g5⟩ := key 1 ⟨2, x1.uuid, x1.like_count, x1.nomination_count⟩ rfl
    refine ⟨a, g1, by simpa using g2, g3, ?_, ?_⟩
    · simpa [seededNominationCount, insertSampleApps, List.enum, List.enumFrom] using g4
    · simpa [seededLikeCount, insertSampleApps, List.enum, List.enumFrom] using g5
  | 2, hi =>
    simp only [List.getElem?_cons_succ, List.getElem?_cons_zero, Option.some.injEq] at hi
    subst hi
    obtain ⟨a, g1, g2, g3, g4, g5⟩ := key 2 ⟨3, x2.uuid, x2.like_count, x2.nomination_count⟩ rfl
    refine ⟨a, g1, by simpa using g2, g3, ?_, ?_⟩
    · simpa [seededNominationCount, insertSampleApps, List.enum, List.enumFrom] using g4
    · simpa [seededLikeCount, insertSampleApps, List.enum, List.enumFrom] using g5
  | n + 3, hi => simp at hi

/-- C24 amended, for the seeding in which the second sample app got id 1, after
the four requests of `seedRun`. -/
theorem seed_counters_are_offsets_witness :
    permutedOrder.Perm (sampleApps "u1" "u2" "u3") ∧
    (seedStore permutedOrder).app_likes = [] ∧
    (seedStore permutedOrder).nominations = [] ∧
    (∀ (i : Nat) (x : SampleApp), permutedOrder[i]? = some x →
      ∃ a, (runEngagements (seedStore permutedOrder) seedRun).apps[i]? = some a ∧
        a.id = (i : Int) + 1 ∧ a.uuid = x.uuid ∧
        a.nomination_count = x.nomination_count
          + (nominationRows (runEngagements (seedStore permutedOrder) seedRun) a.id : Int) ∧
        x.like_count + (likeRows (runEngagements (seedStore permutedOrder) seedRun) a.id : Int)
          ≤ a.like_count) ∧
    runEngagements unseededStore seedRun = unseededStore :=
  ⟨List.Perm.swap _ _ _,
    seed_counters_are_offsets "u1" "u2" "u3" permutedOrder (List.Perm.swap _ _ _) seedRun⟩

/-! ## The existence check rules out the UNIQUE violation (C29) -/

/-- A caller with neither a user id nor an address matches no row. -/
theorem sqlNull_never_matches (a : Int) (b : SqlVal) :
    (∀ x, likeMatches a none none x = false) ∧
    (∀ x, nominationMatches a none none x = false) ∧
    (∀ x, voteMatches b none none x = false) := by
  refine ⟨fun x => ?_, fun x => ?_, fun x => ?_⟩
  · simp [likeMatches, sqlEq_none_right]
  · simp [nominationMatches, sqlEq_none_right]
  · simp [voteMatches, sqlEq_none_right]

/-- C29.  On every store, for like, nominate and vote: whenever the check
`target = ? AND (user_id = ? OR ip_address = ?)` finds no row, the INSERT of
(target, user_id, ip_address) violates neither UNIQUE constraint and appends
the row; a NULL user_id and ip_address never match and never conflict, so such
an INSERT always succeeds; and so, with requests run one at a time, none of the
three operations answers 500. -/
theorem insert_after_check_succeeds (s : Store) :
    (∀ (a : Int) (u : Option Int) (ip : Option String),
      s.app_likes.any (likeMatches a u ip) = false →
      insertLike s.app_likes ⟨u, a, ip⟩ = some (s.app_likes ++ [⟨u, a, ip⟩])) ∧
    (∀ (a : Int) (u : Option Int) (ip : Option String),
      s.nominations.any (nominationMatches a u ip) = false →
      insertNomination s.nominations ⟨u, a, ip⟩ = some (s.nominations ++ [⟨u, a, ip⟩])) ∧
    (∀ (b a : SqlVal) (u : Option Int) (ip ua : Option String),
      s.votes.any (voteMatches b u ip) = false →
      insertVote s.votes ⟨u, b, a, ip, ua⟩ = some (s.votes ++ [⟨u, b, a, ip, ua⟩])) ∧
    (∀ (a : Int), s.app_likes.any (likeMatches a none none) = false ∧
      insertLike s.app_likes ⟨none, a, none⟩ = some (s.app_likes ++ [⟨none, a, none⟩])) ∧
    (∀ (a : Int), s.nominations.any (nominationMatches a none none) = false ∧
      insertNomination s.nominations ⟨none, a, none⟩
        = some (s.nominations ++ [⟨none, a, none⟩])) ∧
    (∀ (b a : SqlVal) (ua : Option String),
      s.votes.any (voteMatches b none none) = false ∧
      insertVote s.votes ⟨none, b, a, none, ua⟩
        = some (s.votes ++ [⟨none, b, a, none, ua⟩])) ∧
    (∀ r, (toggleLike s r).2.status ≠ 500) ∧
    (∀ r, (nominate s r).2.status ≠ 500) ∧
    (∀ r, (castVote s r).2.status ≠ 500) := by
  have hl : ∀ a : Int, s.app_likes.any (likeMatches a none none) = false := by
    intro a
    rw [List.any_eq_false]
    intro x _
    simp [(sqlNull_never_matches a (SqlVal.int 0)).1 x]
  have hn : ∀ a : Int, s.nominations.any (nominationMatches a none none) = false := by
    intro a
    rw [List.any_eq_false]
    intro x _
    simp [(sqlNull_never_matches a (SqlVal.int 0)).2.1 x]
  have hv : ∀ b : SqlVal, s.votes.any (voteMatches b none none) = false := by
    intro b
    rw [List.any_eq_false]
    intro x _
    simp [(sqlNull_never_matches 0 b).2.2 x]
  refine ⟨fun a u ip h => insertLike_fresh _ u a ip h,
    fun a u ip h => insertNomination_fresh _ u a ip h,
    fun b a u ip ua h => insertVote_fresh _ u b a ip ua h,
    fun a => ⟨hl a, insertLike_fresh _ none a none (hl a)⟩,
    fun a => ⟨hn a, insertNomination_fresh _ none a none (hn a)⟩,
    fun b a ua => ⟨hv b, insertVote_fresh _ none b a none ua (hv b)⟩, ?_, ?_, ?_⟩
  · intro r
    cases hfa : findApp s r.id with
    | none => simp [toggleLike, likeHandler, hfa, Response.fail]
    | some app =>
      cases hm : s.app_likes.any (likeMatches app.id r.userId r.ipAddress)
      · rw [toggleLike_fresh s r app hfa hm]
        simp [Response.okLiked]
      · rw [toggleLike_existing s r app hfa hm]
        simp [Response.okLiked]
  · intro r
    rcases nominate_cases s r with ⟨_, _⟩ | ⟨app, _, _, h1⟩
    · cases hfa : findApp s r.id with
      | none => simp [nominate, nominateHandler, hfa, Response.fail]
      | some app =>
        cases hm : s.nominations.any (nominationMatches app.id r.userId r.ipAddress)
        · rw [nominate_fresh s r app hfa hm]
          simp [Response.ok]
        · rw [nominate_existing s r app hfa hm]
          simp [Response.fail]
    · rw [h1]
      simp [Response.ok]
  · intro r
    by_cases ht : r.app_id.truthy = true
    · cases hm : s.votes.any (voteMatches r.id r.userId r.ipAddress)
      · rw [castVote_fresh s r ht hm]
        simp [Response.ok]
      · rw [castVote_existing s r ht hm]
        simp [Response.fail]
    · simp [castVote, voteHandler, ht, Response.fail]

/-- C29 at three INSERTs after a check that found nothing, on `store0`,
`nominated7` and `voted7`. -/
theorem insert_after_check_succeeds_witness :
    insertLike store0.app_likes ⟨some 7, 1, some "10.0.0.1"⟩
      = some (store0.app_likes ++ [⟨some 7, 1, some "10.0.0.1"⟩]) ∧
    insertNomination nominated7.nominations ⟨some 8, 1, some "10.0.0.2"⟩
      = some (nominated7.nominations ++ [⟨some 8, 1, some "10.0.0.2"⟩]) ∧
    insertVote voted7.votes ⟨none, SqlVal.int 1, SqlVal.int 2, some "10.0.0.2", none⟩
      = some (voted7.votes ++ [⟨none, SqlVal.int 1, SqlVal.int 2, some "10.0.0.2", none⟩]) :=
  ⟨(insert_after_check_succeeds store0).1 1 (some 7) (some "10.0.0.1") (by decide),
    (insert_after_check_succeeds nominated7).2.1 1 (some 8) (some "10.0.0.2") (by decide),
    (insert_after_check_succeeds voted7).2.2.1 (SqlVal.int 1) (SqlVal.int 2) none
      (some "10.0.0.2") none (by decide)⟩

/-! ## Expressing interest twice (C23) -/

/-- Adding to `interest_count` changes neither `id` nor `uuid` of a post, so the
post lookup finds the updated copy of the same row. -/
theorem findPost_addInterestCount (d : Database) (id : RouteId) (p : Int)
    (rows : List CollaborationInterest) :
    findPost { d with collaboration_interests := rows,
                      collaboration_posts := addInterestCount p d.collaboration_posts } id
      = (findPost d id).map fun x =>
          if x.id = p then { x with interest_count := x.interest_count + 1 } else x := by
  unfold findPost addInterestCount
  rw [List.find?_map]
  congr 1
  apply congrArg (fun q => List.find? q d.collaboration_posts)
  funext x
  by_cases hx : x.id = p <;> simp [hx]

/-- C23.  For an existing post P and a verified user u with no interest row for
P, expressing interest twice is answered with success and then with 400
"Already expressed interest in this post"; afterwards there is exactly one
`collaboration_interests` row for (P, u) and P.interest_count is 1 more than
before. -/
theorem expressInterest_twice (d : Database) (r r' : InterestRequest) (u : User)
    (post : CollaborationPost)
    (hu : r.user = some u) (hu' : r'.user = some u) (hid : r'.id = r.id)
    (hp : findPost d r.id = some post)
    (hn : ∀ x ∈ d.collaboration_interests, ¬ (x.post_id = post.id ∧ x.user_id = u.id)) :
    (expressInterest d r).2 = Response.ok "Interest expressed successfully" ∧
    (expressInterest (expressInterest d r).1 r').2
      = Response.fail 400 "Already expressed interest in this post" ∧
    (expressInterest (expressInterest d r).1 r').1.collaboration_interests.countP
      (fun x => decide (x.post_id = post.id ∧ x.user_id = u.id)) = 1 ∧
    findPost (expressInterest (expressInterest d r).1 r').1 r.id
      = some { post with interest_count := post.interest_count + 1 } := by
  have hany : d.collaboration_interests.any
      (fun x => decide (x.post_id = post.id) && decide (x.user_id = u.id)) = false := by
    rw [List.any_eq_false]
    intro x hx hc
    simp only [Bool.and_eq_true, decide_eq_true_eq] at hc
    exact hn x hx hc
  have hins : insertInterest d.collaboration_interests
      ⟨post.id, u.id, r.message, r.portfolio_url, r.contact_info⟩
      = some (d.collaboration_interests ++
          [⟨post.id, u.id, r.message, r.portfolio_url, r.contact_info⟩]) := by
    simp [insertInterest, hany]
  have h1 : expressInterest d r =
      ({ d with
          collaboration_interests := d.collaboration_interests ++
            [⟨post.id, u.id, r.message, r.portfolio_url, r.contact_info⟩],
          collaboration_posts := addInterestCount post.id d.collaboration_posts },
        Response.ok "Interest expressed successfully") := by
    simp [expressInterest, hu, hp, hany, hins]
  have hf := findPost_addInterestCount d r.id post.id
    (d.collaboration_interests ++
      [⟨post.id, u.id, r.message, r.portfolio_url, r.contact_info⟩])
  rw [hp] at hf
  simp only [Option.map_some', if_true] at hf
  have h2 : expressInterest (expressInterest d r).1 r' =
      ((expressInterest d r).1,
        Response.fail 400 "Already expressed interest in this post") := by
    rw [h1]
    simp [expressInterest, hu', hid, hf]
  have hcount : d.collaboration_interests.countP
      (fun x => decide (x.post_id = post.id ∧ x.user_id = u.id)) = 0 := by
    rw [List.countP_eq_zero]
    intro x hx
    simpa using hn x hx
  refine ⟨by rw [h1], by rw [h2], ?_, ?_⟩
  · rw [h2, h1]
    show List.countP _ (d.collaboration_interests ++ [_]) = 1
    rw [List.countP_append, hcount]
    simp
  · rw [h2, h1]
    exact hf

/-- C23 for user 8 on the post user 7 created in `db0`. -/
theorem expressInterest_twice_witness :
    (expressInterest (createPost db0 ⟨some ⟨7⟩, some "Title", some "text", some "idea",
        some "developer", some "lean", some "games", "uuid-3"⟩).1
      ⟨some ⟨8⟩, rid1, none, none, none⟩).2
      = Response.ok "Interest expressed successfully" ∧
    (expressInterest (expressInterest (createPost db0 ⟨some ⟨7⟩, some "Title", some "text",
        some "idea", some "developer", some "lean", some "games", "uuid-3"⟩).1
      ⟨some ⟨8⟩, rid1, none, none, none⟩).1 ⟨some ⟨8⟩, rid1, some "hello", none, none⟩).2
      = Response.fail 400 "Already expressed interest in this post" ∧
    (expressInterest (expressInterest (createPost db0 ⟨some ⟨7⟩, some "Title", some "text",
        some "idea", some "developer", some "lean", some "games", "uuid-3"⟩).1
      ⟨some ⟨8⟩, rid1, none, none, none⟩).1
      ⟨some ⟨8⟩, rid1, some "hello", none, none⟩).1.collaboration_interests.countP
      (fun x => decide (x.post_id = 1 ∧ x.user_id = 8)) = 1 ∧
    findPost (expressInterest (expressInterest (createPost db0 ⟨some ⟨7⟩, some "Title",
        some "text", some "idea", some "developer", some "lean", some "games", "uuid-3"⟩).1
      ⟨some ⟨8⟩, rid1, none, none, none⟩).1 ⟨some ⟨8⟩, rid1, some "hello", none, none⟩).1 rid1
      = some ⟨1, "uuid-3", 7, "idea", "developer", 0 + 1⟩ :=
  expressInterest_twice _ ⟨some ⟨8⟩, rid1, none, none, none⟩
    ⟨some ⟨8⟩, rid1, some "hello", none, none⟩ ⟨8⟩ ⟨1, "uuid-3", 7, "idea", "developer", 0⟩
    rfl rfl rfl (by decide) (by decide)

/-! ## Counters of a battle and its vote rows (C28) -/

/-- With `id` a key of `battles`, the lookup by a row's id finds that row. -/
theorem find_battle_of_nodup (bs : List Battle) (i : Nat) (b : Battle)
    (hn : (bs.map fun x => x.id).Nodup) (hb : bs[i]? = some b) :
    bs.find? (fun x => decide (SqlVal.int x.id = SqlVal.int b.id)) = some b := by
  induction bs generalizing i with
  | nil => simp at hb
  | cons x xs ih =>
    rw [List.map_cons, List.nodup_cons] at hn
    cases i with
    | zero =>
      simp only [List.getElem?_cons_zero, Option.some.injEq] at hb
      subst hb
      simp
    | succ i =>
      simp only [List.getElem?_cons_succ] at hb
      have hmem : b.id ∈ xs.map fun x => x.id :=
        List.mem_map.mpr ⟨b, List.getElem?_mem hb, rfl⟩
      have hx : decide (SqlVal.int x.id = SqlVal.int b.id) = false := by
        have : ¬ x.id = b.id := fun h => hn.1 (h ▸ hmem)
        simp [this]
      rw [List.find?_cons, hx]
      exact ih i hn.2 hb

/-- One CastVote keeps a battle's counters in step with its vote rows, provided a
request addressed to the battle carries a plain `app_id`. -/
theorem castVote_battleCounted (s : Store) (r : VoteRequest) (i : Nat) (b : Battle)
    (hne : b.app1_id ≠ b.app2_id) (hn : (s.battles.map fun x => x.id).Nodup)
    (hp : r.id = SqlVal.int b.id → r.app_id.plain = true)
    (h : BattleCounted s i b) : BattleCounted (castVote s r).1 i b := by
  by_cases ht : r.app_id.truthy = true
  swap
  · have : (castVote s r).1 = s := by simp [castVote, voteHandler, ht]
    rw [this]
    exact h
  cases hm : s.votes.any (voteMatches r.id r.userId r.ipAddress)
  swap
  · rw [castVote_existing s r ht hm]
    exact h
  rw [castVote_fresh s r ht hm]
  obtain ⟨b', hb', e1, e2, e3, c1, c2, c3⟩ := h
  simp only [votesFor, votesForApp] at c1 c2 c3
  have hrow : ∀ f : Battle → Battle, (s.battles.map f)[i]? = some (f b') := by
    intro f
    rw [List.getElem?_map, hb']
    rfl
  unfold BattleCounted
  simp only [votesFor, votesForApp, List.countP_append, List.countP_cons, List.countP_nil]
  by_cases hid : r.id = SqlVal.int b.id
  · have hfind : findBattle s r.id = some b' := by
      unfold findBattle
      rw [hid, ← e1]
      exact find_battle_of_nodup s.battles i b' hn hb'
    have hpl := hp hid
    have hid' : SqlVal.int b'.id = r.id := by rw [e1, hid]
    cases hl : r.app_id.looseNum with
    | none =>
      cases hs : r.app_id.stored with
      | int m => simp [AppIdArg.plain, hl, hs] at hpl
      | text t =>
        have ht0 : tally s r = s.battles := by simp [tally, hfind, hl]
        refine ⟨b', by rw [ht0]; exact hb', e1, e2, e3, ?_, ?_, ?_⟩
        · simp [c1]
        · simp [c2]
        · simp [hid]
          omega
    | some n =>
      cases hs : r.app_id.stored with
      | text t => simp [AppIdArg.plain, hl, hs] at hpl
      | int m =>
        have hnm : n = m := by simpa [AppIdArg.plain, hl, hs] using hpl
        subst hnm
        by_cases h1 : n = b'.app1_id
        · have ht1 : tally s r = voteForApp1 r.id s.battles := by
            simp [tally, hfind, hl, h1]
          have h2 : ¬ n = b.app2_id := by
            rw [h1, e2]
            exact hne
          refine ⟨_, by rw [ht1]; exact hrow _, ?_, ?_, ?_, ?_, ?_, ?_⟩ <;>
            simp [hid', hid, e1, e2, e3, h1, h2, c1, c2]
          all_goals first | exact c3 | omega
        · by_cases h2 : n = b'.app2_id
          · have hne' : ¬ b'.app2_id = b'.app1_id := by
              rw [e2, e3]
              exact fun h => hne h.symm
            have ht2 : tally s r = voteForApp2 r.id s.battles := by
              simp [tally, hfind, hl, h2, hne']
            have h1' : ¬ n = b.app1_id := by
              rw [← e2]
              exact h1
            refine ⟨_, by rw [ht2]; exact hrow _, ?_, ?_, ?_, ?_, ?_, ?_⟩ <;>
              simp [hid', hid, e1, e2, e3, h1', h2, c1, c2]
            all_goals first | exact c3 | omega
          · have ht0 : tally s r = s.battles := by simp [tally, hfind, hl, h1, h2]
            have h1' : ¬ n = b.app1_id := by
              rw [← e2]
              exact h1
            have h2' : ¬ n = b.app2_id := by
              rw [← e3]
              exact h2
            refine ⟨b', by rw [ht0]; exact hb', e1, e2, e3, ?_, ?_, ?_⟩
            · simp [c1, h1']
            · simp [c2, h2']
            · simp [hid]
              omega
  · have hkeep : (tally s r)[i]? = some b' := by
      have hne' : ¬ SqlVal.int b'.id = r.id := by
        rw [e1]
        exact fun h => hid h.symm
      unfold tally
      split
      · exact hb'
      · split
        · rw [voteForApp1, hrow]
          simp [hne']
        · split
          · rw [voteForApp2, hrow]
            simp [hne']
          · exact hb'
    refine ⟨b', hkeep, e1, e2, e3, ?_, ?_, ?_⟩
    · simp [c1, hid]
    · simp [c2, hid]
    · simp [c3, hid]

/-- CastVote changes no battle's id. -/
theorem castVote_ids (s : Store) (r : VoteRequest) :
    ((castVote s r).1.battles.map fun x => x.id) = s.battles.map fun x => x.id := by
  obtain ⟨f, hf, kf⟩ := castVote_kept s r
  rw [hf, List.map_map]
  apply List.map_congr_left
  intro x _
  exact (kf x).1

/-- Any sequence of CastVote requests keeps a battle's counters in step with its
vote rows, provided the requests addressed to it carry a plain `app_id`. -/
theorem runVotes_battleCounted (rs : List VoteRequest) (s : Store) (i : Nat) (b : Battle)
    (hne : b.app1_id ≠ b.app2_id) (hn : (s.battles.map fun x => x.id).Nodup)
    (hp : ∀ r ∈ rs, r.id = SqlVal.int b.id → r.app_id.plain = true)
    (h : BattleCounted s i b) : BattleCounted (runVotes s rs) i b := by
  induction rs generalizing s with
  | nil => exact h
  | cons r rs ih =>
    apply ih (castVote s r).1
    · rw [castVote_ids]
      exact hn
    · exact fun x hx => hp x (List.mem_cons_of_mem _ hx)
    · exact castVote_battleCounted s r i b hne hn (hp r (List.mem_cons_self _ _)) h

/-- C28 as stated fails.  Battle 1 of `store0` is between apps 1 and 2, at 0, 0
and 0, with no vote row; after one vote with the app_id "0x1" app1_votes is 1
while no row of the battle has app_id 1.  And a battle that starts at 0 and 0
with total_votes 5 has total_votes above its number of rows from the start. -/
theorem hex_app_id_counts_without_row :
    battle1.app1_id ≠ battle1.app2_id ∧ store0.votes = [] ∧
    (runVotes store0 [voteHex]).battles = [⟨1, 1, 2, 1, 0, 1⟩] ∧
    votesFor (runVotes store0 [voteHex]) 1 = 1 ∧
    votesForApp (runVotes store0 [voteHex]) 1 1 = 0 ∧
    (runVotes ⟨[], [], [], [⟨1, 1, 2, 0, 0, 5⟩], []⟩ []).battles = [⟨1, 1, 2, 0, 0, 5⟩] ∧
    votesFor (runVotes ⟨[], [], [], [⟨1, 1, 2, 0, 0, 5⟩], []⟩ []) 1 = 0 := by
  decide

/-- C28, amended.  For a battle B with app1_id and app2_id different that starts
with app1_votes, app2_votes and total_votes all 0 and no `votes` rows (ids of
`battles` being a key), after any finite sequence of CastVote requests in which
every request addressed to B carries an app_id that SQLite stores as the
integer it is loosely equal to, app1_votes is the number of rows of B with
app_id app1_id, app2_votes the number with app_id app2_id, and total_votes is
at most the number of rows of B. -/
theorem runVotes_counts_rows (s : Store) (rs : List VoteRequest) (i : Nat) (b : Battle)
    (hb : s.battles[i]? = some b) (hkey : (s.battles.map fun x => x.id).Nodup)
    (hne : b.app1_id ≠ b.app2_id)
    (h0 : b.app1_votes = 0 ∧ b.app2_votes = 0 ∧ b.total_votes = 0) (hv : s.votes = [])
    (hp : ∀ r ∈ rs, r.id = SqlVal.int b.id → r.app_id.plain = true) :
    ∃ b', (runVotes s rs).battles[i]? = some b' ∧ b'.id = b.id ∧
      b'.app1_id = b.app1_id ∧ b'.app2_id = b.app2_id ∧
      b'.app1_votes = (votesForApp (runVotes s rs) b.id b.app1_id : Int) ∧
      b'.app2_votes = (votesForApp (runVotes s rs) b.id b.app2_id : Int) ∧
      b'.total_votes ≤ (votesFor (runVotes s rs) b.id : Int) := by
  apply runVotes_battleCounted rs s i b hne hkey hp
  refine ⟨b, hb, rfl, rfl, rfl, ?_, ?_, ?_⟩
  · simp [votesForApp, hv, h0.1]
  · simp [votesForApp, hv, h0.2.1]
  · simp [votesFor, hv, h0.2.2]

/-- C28 amended, on battle 1 of `store0` for four votes, one of them for an app
outside the battle. -/
theorem runVotes_counts_rows_witness :
    ∃ b', (runVotes store0 [vote7, vote8, voteForeign, voteAnon]).battles[0]? = some b' ∧
      b'.id = battle1.id ∧
      b'.app1_id = battle1.app1_id ∧ b'.app2_id = battle1.app2_id ∧
      b'.app1_votes = (votesForApp (runVotes store0 [vote7, vote8, voteForeign, voteAnon])
        battle1.id battle1.app1_id : Int) ∧
      b'.app2_votes = (votesForApp (runVotes store0 [vote7, vote8, voteForeign, voteAnon])
        battle1.id battle1.app2_id : Int) ∧
      b'.total_votes ≤ (votesFor (runVotes store0 [vote7, vote8, voteForeign, voteAnon])
        battle1.id : Int) :=
  runVotes_counts_rows store0 [vote7, vote8, voteForeign, voteAnon] 0 battle1 rfl
    (by decide) (by decide) (by decide) rfl (by decide)

/-! ## The current battle (C22) -/

/-- C22.  `GET /api/battles/current` answers with `null` if and only if no battle
has status "active"; otherwise with one battle of the table whose status is
"active" and whose battle_date is maximal among the active battles. -/
theorem currentBattle_spec (c : Catalog) :
    (getCurrentBattle c).2 = ⟨200, QueryBody.battle (currentBattle c)⟩ ∧
    (currentBattle c = none ↔ ∀ b ∈ c.battles, b.status ≠ "active") ∧
    ∀ b, currentBattle c = some b →
      b ∈ c.battles ∧ b.status = "active" ∧
      ∀ b' ∈ c.battles, b'.status = "active" → b'.battle_date ≤ b.battle_date := by
  have hperm := List.perm_insertionSort laterBattle
    (c.battles.filter fun b => decide (b.status = "active"))
  have hsorted := List.sorted_insertionSort laterBattle
    (c.battles.filter fun b => decide (b.status = "active"))
  refine ⟨rfl, ?_, ?_⟩
  · unfold currentBattle
    rw [List.head?_eq_none_iff]
    constructor
    · intro h b hb hact
      have : b ∈ c.battles.filter fun b => decide (b.status = "active") := by
        simp [hb, hact]
      have := hperm.symm.subset this
      rw [h] at this
      simp at this
    · intro h
      have : (c.battles.filter fun b => decide (b.status = "active")) = [] := by
        rw [List.filter_eq_nil_iff]
        intro b hb
        simpa using h b hb
      rw [this]
      rfl
  · intro b hb
    unfold currentBattle at hb
    cases hl : (c.battles.filter fun b => decide (b.status = "active")).insertionSort
        laterBattle with
    | nil => rw [hl] at hb; simp at hb
    | cons x xs =>
      rw [hl] at hb hsorted hperm
      simp only [List.head?_cons, Option.some.injEq] at hb
      subst hb
      have hmem : x ∈ c.battles.filter fun b => decide (b.status = "active") :=
        hperm.subset (List.mem_cons_self _ _)
      simp only [List.mem_filter, decide_eq_true_eq] at hmem
      refine ⟨hmem.1, hmem.2, ?_⟩
      intro b' hb' hact
      have hin : b' ∈ x :: xs := by
        apply hperm.symm.subset
        simp [hb', hact]
      rcases List.mem_cons.mp hin with rfl | hin
      · exact le_refl _
      · exact List.rel_of_sorted_cons hsorted b' hin

/-! ## The token middleware (C21) -/

/-- C21.  `authenticateToken` sends no response and calls `next` exactly once.
`req.user` is null when the Authorization header is absent, when it has no
second space-separated component, and when the token fails verification; it is
the verified payload when the (non-empty) token verifies. -/
theorem authenticateToken_falls_back (verify : String → Option User)
    (header : Option String) :
    (authenticateToken verify header).response = none ∧
    (authenticateToken verify header).nextCalls = 1 ∧
    (header = none → (authenticateToken verify header).user = none) ∧
    (∀ h, header = some h → (splitSpaces [] h.toList)[1]? = none →
      (authenticateToken verify header).user = none) ∧
    (∀ h t, header = some h → (splitSpaces [] h.toList)[1]? = some t → verify t = none →
      (authenticateToken verify header).user = none) ∧
    (∀ h t u, header = some h → (splitSpaces [] h.toList)[1]? = some t → t ≠ "" →
      verify t = some u → (authenticateToken verify header).user = some u) := by
  refine ⟨?_, ?_, ?_, ?_, ?_, ?_⟩
  · unfold authenticateToken
    split
    · rfl
    · split <;> rfl
  · unfold authenticateToken
    split
    · rfl
    · split <;> rfl
  · intro h
    simp [authenticateToken, bearerToken, h]
  · intro h hh hs
    have hs' : (splitSpaces [] h.data)[1]? = none := hs
    simp [authenticateToken, bearerToken, hh, hs']
  · intro h t hh hs hv
    have hs' : (splitSpaces [] h.data)[1]? = some t := hs
    by_cases ht : t = ""
    · simp [authenticateToken, bearerToken, hh, hs', ht]
    · simp [authenticateToken, bearerToken, hh, hs', ht, hv]
  · intro h t u hh hs ht hv
    have hs' : (splitSpaces [] h.data)[1]? = some t := hs
    simp [authenticateToken, bearerToken, hh, hs', ht, hv]

/-- C21 for a verifier that accepts the token "good" of user 7 only. -/
theorem authenticateToken_falls_back_witness :
    (authenticateToken (fun t => if t = "good" then some ⟨7⟩ else none)
      (some "Bearer good")).user = some ⟨7⟩ ∧
    (authenticateToken (fun t => if t = "good" then some ⟨7⟩ else none)
      (some "Bearer bad")).user = none ∧
    (authenticateToken (fun t => if t = "good" then some ⟨7⟩ else none)
      (some "Bearer")).user = none :=
  ⟨(authenticateToken_falls_back _ (some "Bearer good")).2.2.2.2.2 "Bearer good" "good" ⟨7⟩
      rfl (by decide) (by decide) (by decide),
    (authenticateToken_falls_back _ (some "Bearer bad")).2.2.2.2.1 "Bearer bad" "bad"
      rfl (by decide) (by decide),
    (authenticateToken_falls_back _ (some "Bearer")).2.2.2.1 "Bearer" rfl (by decide)⟩

/-! ## What the query routes write (C25) -/

/-- C25 as stated fails: `GET /api/apps/1` on `catalog0` is answered 200 and
leaves app 1 with view_count 11 instead of 10. -/
theorem getApp_counts_the_view :
    findAppRecord catalog0 rid1
      = some ⟨⟨1, "app-one", 0, 0⟩, "approved", "games", false, false, 10,
          "2024-01-01 00:00:00"⟩ ∧
    (getApp catalog0 rid1).2.status = 200 ∧
    (getApp catalog0 rid1).1.apps
      = [⟨⟨1, "app-one", 0, 0⟩, "approved", "games", false, false, 11,
          "2024-01-01 00:00:00"⟩] ∧
    (getApp catalog0 rid1).1 ≠ catalog0 := by
  decide

/-- C25, amended.  `GET /api/apps`, `GET /api/battles` and
`GET /api/battles/current` leave every table as it is; `GET /api/apps/:id`
leaves every table as it is when no app matches, and otherwise adds 1 to the
view_count of the app it found and changes nothing else. -/
theorem query_routes_effect (c : Catalog) (q : AppsQuery) (status : String)
    (limit : Option Int) (id : RouteId) :
    (getApps c q).1 = c ∧
    (getBattles c status limit).1 = c ∧
    (getCurrentBattle c).1 = c ∧
    (findAppRecord c id = none → (getApp c id).1 = c) ∧
    (∀ app, findAppRecord c id = some app →
      (getApp c id).1 = { c with apps := addViewCount app.id c.apps }) := by
  refine ⟨?_, ?_, rfl, ?_, ?_⟩
  · unfold getApps
    split <;> rfl
  · unfold getBattles
    split <;> rfl
  · intro h
    simp [getApp, h]
  · intro app h
    simp [getApp, h]

/-- C25 amended, on `catalog0` for app 1 and for an id that matches no app. -/
theorem query_routes_effect_witness :
    (getApp catalog0 rid1).1
      = { catalog0 with apps := addViewCount 1 catalog0.apps } ∧
    (getApp catalog0 ⟨"404", some 404⟩).1 = catalog0 :=
  ⟨(query_routes_effect catalog0 ⟨none, none, none, some 50, some 0⟩ "all" (some 20)
      rid1).2.2.2.2
      ⟨⟨1, "app-one", 0, 0⟩, "approved", "games", false, false, 10, "2024-01-01 00:00:00"⟩
      (by decide),
    (query_routes_effect catalog0 ⟨none, none, none, some 50, some 0⟩ "all" (some 20)
      ⟨"404", some 404⟩).2.2.2.1 (by decide)⟩

/-! ## The strong-password validator (C26) -/

/-- C26, evaluated at the failing input.  "Abcdef1#" has 8 characters with an
uppercase letter, a lowercase letter, a digit and the special character `#`,
as the validator's message asks, and the validator rejects it; with `!` in
place of `#` it accepts. -/
theorem strongPassword_rejects_hash :
    meetsPasswordMessage "Abcdef1#" = true ∧
    strongPassword "Abcdef1#" = false ∧
    strongPassword "Abcdef1!" = true := by
  decide

/-! ## `formatNumber` just below a million (C30) -/

/-- C30, evaluated at the failing inputs.  Whatever way ties round,
`formatNumber(999999)` and `formatNumber(999951)` are "1000.0K", a thousands
value of 1000; 999949 is still "999.9K" and 1000000 is "1.0M". -/
theorem formatNumber_shows_1000K (tieUp : Nat → Bool) :
    formatNumber tieUp 999999 = "1000.0K" ∧
    formatNumber tieUp 999951 = "1000.0K" ∧
    formatNumber tieUp 999949 = "999.9K" ∧
    formatNumber tieUp 1000000 = "1.0M" := by
  refine ⟨?_, ?_, ?_, ?_⟩ <;> simp [formatNumber, toFixed1] <;> decide

end VibeAwards
